import Mathlib

/-!
# TodoWebApp: input validation, registration, login, sessions and tasks

A shallow embedding of the Go packages `utils`, `config`, `handlers`,
`handlers/authentication`, `handlers/middleware` and `handlers/task` of the
repository, followed by theorems about them.

Conventions of the embedding:

* a Go `string` is a `String`; `len([]byte(s))` is `String.utf8ByteSize`, so the
  strings covered are the valid UTF-8 ones;
* a Go `error` is an `Option String`: `none` is `nil`, `some msg` an error whose
  `Error()` text is `msg`;
* a method on a pointer that mutates what it points to returns the new value next
  to its result (explicit state passing);
* code outside the repository (the regexp engine, bcrypt, the SQL server, gin's
  writer, the cookie store) is modelled by the smallest interface the
  repository's code observes;
* a run that ends in a Go panic (a nil dereference) is the `Except.error` of a
  result of type `Except String _`.
-/

namespace TodoWebApp

/-! ## Library functions used by the source -/

namespace fmt

/-- Go `fmt.Sprintf(format, arg)` for a format with one verb (`%s`, `%v` or `%d`):
the first verb is replaced by the text of the argument. -/
def sprintfChars : List Char → List Char → List Char
  | [], _ => []
  | '%' :: _ :: rest, a => a ++ rest
  | c :: rest, a => c :: sprintfChars rest a

/-- Go `fmt.Sprintf` with a single argument, already rendered as text. -/
def Sprintf (format arg : String) : String :=
  ⟨sprintfChars format.data arg.data⟩

end fmt

namespace unicode

/-- Go `unicode.IsSpace`: the code points with the Unicode White_Space property. -/
def IsSpace (r : Char) : Bool :=
  let n := r.toNat
  (0x09 ≤ n && n ≤ 0x0D) || n == 0x20 || n == 0x85 || n == 0xA0 || n == 0x1680 ||
  (0x2000 ≤ n && n ≤ 0x200A) || n == 0x2028 || n == 0x2029 || n == 0x202F ||
  n == 0x205F || n == 0x3000

end unicode

namespace strings

/-- Whether the character list `s` begins with `p`. -/
def startsWith : List Char → List Char → Bool
  | _, [] => true
  | [], _ :: _ => false
  | c :: s, p :: ps => c == p && startsWith s ps

/-- Whether `sub` occurs in `s` as a contiguous run. -/
def containsChars : List Char → List Char → Bool
  | [], sub => sub.isEmpty
  | c :: s, sub => startsWith (c :: s) sub || containsChars s sub

/-- Go `strings.Contains(s, substr)`. -/
def Contains (s substr : String) : Bool :=
  containsChars s.data substr.data

/-- Go `strings.TrimSpace(s)`: `s` without leading and trailing white space. -/
def TrimSpace (s : String) : String :=
  ⟨((s.data.dropWhile unicode.IsSpace).reverse.dropWhile unicode.IsSpace).reverse⟩

end strings

namespace regexp

/-- The ranges of a bracket expression after its opening bracket, `x-y...]`.
`none` when the text has another shape. -/
def parseRanges : List Char → Option (List (Char × Char))
  | [']'] => some []
  | lo :: '-' :: hi :: rest => (parseRanges rest).map fun rs => (lo, hi) :: rs
  | _ => none

/-- Go `regexp.Match(pattern, b)` for the patterns of this repository, which are
bracket expressions of character ranges such as `[a-zA-Z]`: the result is whether
some character of `b` lies in one of the ranges. Like the library it returns an
error for a pattern it cannot compile; patterns outside the bracket fragment are
not modelled and are reported that way too. -/
def Match (pattern : String) (b : String) : Except String Bool :=
  match pattern.data with
  | '[' :: body =>
    match parseRanges body with
    | some rs => .ok (b.data.any fun c => rs.any fun r => decide (r.1 ≤ c ∧ c ≤ r.2))
    | none => .error "error parsing regexp"
  | _ => .error "error parsing regexp"

end regexp

/-! ## Package `utils`: ServerProperties.go -/

namespace utils

def DigitsRegexp : String := "[0-9]"
def LatinRegexp : String := "[a-zA-Z]"
def MinLength : Nat := 8
def MaxLength : Nat := 64
def InternalErrorString : String := "Internal error occurred during validation"
def LatinError : String := "Password should contain at least one latin letter"
def DigitError : String := "Password should contain at least one digit"
def SpaceError : String := "Password should not contain space"
def PasswordNotMatch : String := "Passwords do not match"
def UserAlreadyExistError : String := "User already exists"
def UsernameContainsSpace : String := "Username should not contain space"
def ErrorPasswordHTML : String := "PasswordError"
def ErrorUsernameHTML : String := "UserExistError"
def ErrorLoginHTML : String := "LoginError"
def LoginError : String := "Incorrect username or password"
def Form : String := "Form"
def UserNotFound : String := "User %s not found"

/-- Go `ContainSpace`: `strings.Contains(input, " ")`. -/
def ContainSpace (input : String) : Bool :=
  strings.Contains input " "

/-- Go `TrimSpace`. -/
def TrimSpace (input : String) : String :=
  strings.TrimSpace input

/-- Go `IsValidPassword(pword, repword)`: `none` when the password is accepted,
otherwise the error of the first rule that fails. -/
def IsValidPassword (pword repword : String) : Option String :=
  let passwordByted := pword
  if pword ≠ repword then
    some PasswordNotMatch
  else if passwordByted.utf8ByteSize < MinLength then
    some (fmt.Sprintf "Password length must be at least %d" (toString MinLength))
  else if passwordByted.utf8ByteSize > MaxLength then
    some (fmt.Sprintf "Password length must be at most %d" (toString MaxLength))
  else
    match regexp.Match LatinRegexp passwordByted with
    | .error _ => some InternalErrorString
    | .ok false => some LatinError
    | .ok true =>
      match regexp.Match DigitsRegexp passwordByted with
      | .error _ => some InternalErrorString
      | .ok false => some DigitError
      | .ok true =>
        if ContainSpace pword then some SpaceError else none

/-- Go `IsValidUsername(uname)`. -/
def IsValidUsername (uname : String) : Option String :=
  if ContainSpace uname then some UsernameContainsSpace else none

end utils

/-! ## Package `net/http`: status codes -/

namespace http

def StatusOK : Nat := 200
def StatusFound : Nat := 302
def StatusSeeOther : Nat := 303
def StatusUnauthorized : Nat := 401
def StatusInternalServerError : Nat := 500

end http

/-! ## Package `config`: config.go -/

namespace config

def SessionTimeDefault : Int := 300
def SessionTimeExpireTime : Int := -1

structure TasksConfig where
  Route : String := ""
  TitleParseNaming : String := ""
  HTMLPageName : String := ""
  RedirectPath : String := ""

structure ParseKeys where
  UsernameParseKey : String := ""
  PasswordParseKey : String := ""
  RePasswordParseKey : String := ""

structure UserRouteConfig where
  GetTask : TasksConfig := {}
  DeleteTask : TasksConfig := {}
  CreateTask : TasksConfig := {}
  Route : String := ""

structure AuthPageConfig where
  PageName : String := ""
  Path : String := ""
  RedirectPath : String := ""
  EmptyPathString : String := ""
  ParseKeys : ParseKeys := {}
  SessionTime : Int := 0
  SessionTimeOut : Int := 0

structure Cookie where
  Naming : String := ""
  UserInfoKey : String := ""

def NewCookie (name key : String) : Cookie :=
  { Naming := name, UserInfoKey := key }

def NewParseKeys : ParseKeys :=
  { UsernameParseKey := "uname", PasswordParseKey := "pword", RePasswordParseKey := "re-pword" }

structure RouteConfig where
  UserConfig : UserRouteConfig := {}
  MainLoginConfig : AuthPageConfig := {}
  MainRegisterConfig : AuthPageConfig := {}
  MainLogoutConfig : AuthPageConfig := {}
  Authentication : AuthPageConfig := {}
  Cookie : Cookie := {}

/-- Go `config.Routes`; a field the source leaves out has Go's zero value. -/
def Routes : RouteConfig :=
  { UserConfig :=
      { GetTask :=
          { Route := "/user/tasks", HTMLPageName := "todoMain.html", RedirectPath := "/user/logout" }
        DeleteTask := { Route := "/user/deleteTask", RedirectPath := "/user/tasks" }
        CreateTask := { Route := "/user/addTask", RedirectPath := "/user/tasks" }
        Route := "/user" }
    MainLoginConfig :=
      { PageName := "login.html", Path := "/login", EmptyPathString := "/"
        ParseKeys := NewParseKeys, RedirectPath := "/user/tasks" }
    MainRegisterConfig :=
      { PageName := "register.html", Path := "/register", ParseKeys := NewParseKeys }
    MainLogoutConfig := { RedirectPath := "/login" }
    Authentication :=
      { RedirectPath := "/logout", SessionTime := SessionTimeDefault
        SessionTimeOut := SessionTimeExpireTime, ParseKeys := NewParseKeys }
    Cookie := NewCookie "loginSession" "user" }

end config

/-! ## Package `golang.org/x/crypto/bcrypt`, as the source uses it -/

namespace bcrypt

def DefaultCost : Nat := 10

/-- The two bcrypt functions the source calls. The library is outside the repository,
so the functions are a parameter of everything that hashes or verifies. -/
structure Impl where
  /-- Go `bcrypt.GenerateFromPassword(password, cost)`: the hash, or an error. -/
  GenerateFromPassword : String → Nat → Except String String
  /-- Go `bcrypt.CompareHashAndPassword(hashedPassword, password)`: `nil` on a match. -/
  CompareHashAndPassword : String → String → Option String

end bcrypt

/-! ## Package `database/sql` and the PostgreSQL server behind it -/

namespace sql

/-- A row of table `users` (user.go). -/
structure UserRow where
  id : Int
  username : String
  passwordhash : String
  creation_time : String
deriving DecidableEq, Repr

/-- A row of table `tasks` (task.go). -/
structure TaskRow where
  id : Int
  user_id : Int
  description : String
  is_completed : Bool
  created_at : String
deriving DecidableEq, Repr

/-- The statements the repository sends, with their bound parameters. -/
inductive Stmt
  /-- `SELECT * FROM users WHERE username = $1 LIMIT 1` -/
  | selectUser (username : String)
  /-- `SELECT 1 FROM users WHERE username = $1 LIMIT 1` -/
  | selectOne (username : String)
  /-- `INSERT INTO users (username, passwordhash) VALUES ($1, $2)` -/
  | insertUser (username passwordhash : String)
  /-- `INSERT INTO tasks (user_id, description) VALUES ($1, $2)` -/
  | insertTask (userID description : String)
  /-- `SELECT description, id FROM tasks WHERE user_id = $1` -/
  | selectTasks (userID : String)
  /-- `DELETE FROM tasks WHERE user_id = $1 AND id = $2` -/
  | deleteTask (userID : String) (taskID : Int)
deriving DecidableEq, Repr

/-- An error of `Row.Scan`: the sentinel `sql.ErrNoRows`, which the source tests by
identity, or any other error with its text. -/
inductive ScanError
  | ErrNoRows
  | other (msg : String)
deriving DecidableEq, Repr

/-- Go `*sql.DB` together with the server it talks to: the two tables, the sequences and
clock that fill the defaulted columns, the error the driver answers a statement with
(lost connection, missing privilege, violated constraint; `none` when the statement
runs), and the statements received so far, oldest first. -/
structure DB where
  users : List UserRow
  tasks : List TaskRow
  users_id_seq : Int
  tasks_id_seq : Int
  now : String
  failing : Stmt → Option String
  log : List Stmt

/-- The server has received statement `s`. -/
def DB.received (db : DB) (s : Stmt) : DB :=
  { db with log := db.log ++ [s] }

/-- The row `SELECT ... FROM users WHERE username = $1 LIMIT 1` yields, if any. -/
def DB.userByUsername (db : DB) (username : String) : Option UserRow :=
  db.users.find? fun r => r.username == username

/-- Go `QueryRow("SELECT * FROM users WHERE username = $1 LIMIT 1", username).Scan(...)`. -/
def DB.QueryRowUser (db : DB) (username : String) : Except ScanError UserRow × DB :=
  match db.failing (.selectUser username) with
  | some e => (.error (.other e), db.received (.selectUser username))
  | none =>
    match db.userByUsername username with
    | none => (.error .ErrNoRows, db.received (.selectUser username))
    | some row => (.ok row, db.received (.selectUser username))

/-- Go `QueryRow("SELECT 1 FROM users WHERE username = $1 LIMIT 1", username).Scan(&exists)`. -/
def DB.QueryRowOne (db : DB) (username : String) : Except ScanError Int × DB :=
  match db.failing (.selectOne username) with
  | some e => (.error (.other e), db.received (.selectOne username))
  | none =>
    match db.userByUsername username with
    | none => (.error .ErrNoRows, db.received (.selectOne username))
    | some _ => (.ok 1, db.received (.selectOne username))

/-- Go `Exec("INSERT INTO users (username, passwordhash) VALUES ($1, $2)", ...)`: the new
row takes its id from the sequence and its creation time from the clock. -/
def DB.ExecInsertUser (db : DB) (username passwordhash : String) : Option String × DB :=
  match db.failing (.insertUser username passwordhash) with
  | some e => (some e, db.received (.insertUser username passwordhash))
  | none =>
    (none,
      { (db.received (.insertUser username passwordhash)) with
        users := db.users ++ [{ id := db.users_id_seq, username := username,
                                passwordhash := passwordhash, creation_time := db.now }]
        users_id_seq := db.users_id_seq + 1 })

end sql

/-! ## Package `utils`: user.go, bcrypt.go and the types of database.go -/

namespace utils

structure User where
  Username : String := ""
  PasswordHash : String := ""
  ID : String := ""
  creationTime : String := ""
deriving DecidableEq, Repr

structure RegisterForm where
  Username : String
  Password : String
  Re_Password : String
deriving DecidableEq, Repr

structure DataBaseProps where
  databaseName : String := ""
  host : String := ""
  port : String := ""
  user : String := ""
  password : String := ""
  Connection : Option sql.DB

structure Task where
  Description : String
  TaskID : String
deriving DecidableEq, Repr

structure ToDoPassStruct where
  Tasks : List Task
  UserID : Int
deriving DecidableEq, Repr

def NewRegisterForm (username password re_password : String) : RegisterForm :=
  { Username := username, Password := password, Re_Password := re_password }

/-- Go `HashPassword(password)`. -/
def HashPassword (bc : bcrypt.Impl) (password : String) : Except String String :=
  match bc.GenerateFromPassword password bcrypt.DefaultCost with
  | .error err => .error err
  | .ok hashedPassword => .ok hashedPassword

/-- Go `ComparePassword(password, hash)`. -/
def ComparePassword (bc : bcrypt.Impl) (password hash : String) : Bool :=
  (bc.CompareHashAndPassword hash password).isNone

end utils

/-! ## Package `github.com/gorilla/sessions`, as the source uses it -/

namespace sessions

/-- What the source stores in `session.Values`: a `utils.User` or a `*utils.User`. -/
inductive Value
  | user (u : utils.User)
  | userPtr (u : utils.User)
deriving DecidableEq, Repr

/-- Go `sessions.Session`: the values by key and `Options.MaxAge`. -/
structure Session where
  Values : String → Option Value
  MaxAge : Int

end sessions

/-! ## Package `github.com/gin-gonic/gin`, as the source uses it -/

namespace gin

/-- The values the source puts in a `gin.H`. -/
inductive Value
  | str (s : String)
  | form (f : utils.RegisterForm)
  | tasks (t : utils.ToDoPassStruct)
deriving DecidableEq, Repr

/-- Go `gin.H`, a `map[string]any`. -/
structure H where
  get : String → Option Value

/-- The empty map `gin.H{}`. -/
def H.empty : H := ⟨fun _ => none⟩

/-- Go `data[key] = value`. -/
def H.set (data : H) (key : String) (value : Value) : H :=
  ⟨fun k => if k = key then some value else data.get k⟩

/-- A call on the response writer. -/
inductive Response
  /-- `c.HTML(code, name, obj)` -/
  | HTML (code : Nat) (name : String) (obj : H)
  /-- `c.String(code, body)` -/
  | String (code : Nat) (body : String)
  /-- `c.Redirect(code, location)` -/
  | Redirect (code : Nat) (location : String)

/-- Go `*http.Request` as the handlers read it: the error of `ParseForm()`, if any, and
the form values `c.PostForm(key)`, empty for an absent key. -/
structure Request where
  ParseFormErr : Option String
  PostForm : String → String

/-- Go `*gin.Context` with the cookie store of the handler: the request; the session
named `loginSession` that `Store.Get` returns for the request and the error it returns
with it; the error `sessions.Save` meets, if any; the sessions saved to the response
(as `Set-Cookie`), oldest first; and the calls made on the response writer that gin
accepted, in order. -/
structure Context where
  Request : Request
  session : sessions.Session
  sessionErr : Option String
  saveErr : Option String
  saved : List sessions.Session
  written : List Response

/-- Go `c.HTML(code, name, obj)`. -/
def Context.HTML (c : Context) (code : Nat) (name : String) (obj : H) : Context :=
  { c with written := c.written ++ [Response.HTML code name obj] }

/-- The statuses gin accepts for a redirect: 300 to 308, and 201. -/
def redirectStatusAccepted (code : Nat) : Bool :=
  (300 ≤ code && code ≤ 308) || code == 201

/-- The context after a call `c.Redirect(code, location)` that gin accepts: the call is
added to the record of the calls made on the writer. The record keeps a redirect
that comes after a body; that such a redirect does not reach the client is told
by `Context.sent`. -/
def Context.redirected (c : Context) (code : Nat) (location : String) : Context :=
  { c with written := c.written ++ [Response.Redirect code location] }

/-- Go `c.Redirect(code, location)`. For a status outside 300 to 308 and other than 201
gin panics with "Cannot redirect with status code ..." before anything is
written, which is the `Except.error` of the result; for an accepted status the
call is recorded. Whether a recorded redirect reaches the client is told by
`Context.sent`. -/
def Context.Redirect (c : Context) (code : Nat) (location : String) : Except String Context :=
  if redirectStatusAccepted code then .ok (c.redirected code location)
  else .error ("Cannot redirect with status code " ++ toString code)

/-- What reaches the client of the calls `calls`, `bodyWritten` telling whether a body
has been written before them: `c.String` and `c.HTML` write a body, with which gin
sends the status line and the headers, so that a `c.Redirect` after a body changes
neither the status nor the `Location` header and is dropped. -/
def sentAfter (bodyWritten : Bool) : List Response → List Response
  | [] => []
  | Response.Redirect code location :: rest =>
    if bodyWritten then sentAfter bodyWritten rest
    else Response.Redirect code location :: sentAfter bodyWritten rest
  | Response.HTML code name obj :: rest => Response.HTML code name obj :: sentAfter true rest
  | Response.String code body :: rest => Response.String code body :: sentAfter true rest

/-- What reaches the client of the calls made on the writer of `c`. -/
def Context.sent (c : Context) : List Response :=
  sentAfter false c.written

/-- Go `c.String(code, body)`. -/
def Context.String (c : Context) (code : Nat) (body : String) : Context :=
  { c with written := c.written ++ [Response.String code body] }

end gin

namespace sessions

/-- Go `sessions.Save(c.Request, c.Writer)`, called after `Store.Get` has registered the
session of the request. -/
def Save (c : gin.Context) : Option String × gin.Context :=
  match c.saveErr with
  | some err => (some err, c)
  | none => (none, { c with saved := c.saved ++ [c.session] })

end sessions

/-! ## Package `utils`: the operations of database.go -/

namespace utils

/-- Go `(*DataBaseProps).FetchUserByUsername`. -/
def FetchUserByUsername (database : Option DataBaseProps) (Username : String) :
    (User × Option String) × Option DataBaseProps :=
  match database with
  | none => (({}, some "database connection is nil"), database)
  | some props =>
    match props.Connection with
    | none => (({}, some "database connection is nil"), database)
    | some conn =>
      match conn.QueryRowUser Username with
      | (.error .ErrNoRows, conn1) =>
        (({}, some (fmt.Sprintf UserNotFound Username)),
          some { props with Connection := some conn1 })
      | (.error (.other err), conn1) =>
        (({}, some (fmt.Sprintf "failed to scan user: %v" err)),
          some { props with Connection := some conn1 })
      | (.ok row, conn1) =>
        (({ ID := toString row.id, Username := row.username,
            PasswordHash := row.passwordhash, creationTime := row.creation_time }, none),
          some { props with Connection := some conn1 })

/-- Go `(*DataBaseProps).DoesUserExist`. -/
def DoesUserExist (database : Option DataBaseProps) (Username : String) :
    (Bool × Option String) × Option DataBaseProps :=
  match database with
  | none => ((false, some "database connection is nil"), database)
  | some props =>
    match props.Connection with
    | none => ((false, some "database connection is nil"), database)
    | some conn =>
      match conn.QueryRowOne Username with
      | (.error .ErrNoRows, conn1) =>
        ((false, none), some { props with Connection := some conn1 })
      | (.error (.other err), conn1) =>
        ((false, some err), some { props with Connection := some conn1 })
      | (.ok «exists», conn1) =>
        ((«exists» == 1, none), some { props with Connection := some conn1 })

/-- Go `(*DataBaseProps).IsValidRegister`: the error, the page data after the call and
the database after the call. -/
def IsValidRegister (database : Option DataBaseProps) (UserInput : RegisterForm)
    (data : gin.H) : Option String × gin.H × Option DataBaseProps :=
  match DoesUserExist database UserInput.Username with
  | ((_, some _), database1) => (some InternalErrorString, data, database1)
  | ((true, none), database1) =>
    (some UserAlreadyExistError,
      (data.set ErrorUsernameHTML (.str UserAlreadyExistError)).set Form (.form UserInput),
      database1)
  | ((false, none), database1) =>
    match IsValidUsername UserInput.Username with
    | some err =>
      (some err,
        (data.set ErrorUsernameHTML (.str UsernameContainsSpace)).set Form (.form UserInput),
        database1)
    | none =>
      match IsValidPassword UserInput.Password UserInput.Re_Password with
      | some err =>
        (some err, (data.set ErrorPasswordHTML (.str err)).set Form (.form UserInput),
          database1)
      | none => (none, data, database1)

/-- Go `(*DataBaseProps).CreateNewUser`. -/
def CreateNewUser (bc : bcrypt.Impl) (database : Option DataBaseProps)
    (Username Password : String) : Option String × Option DataBaseProps :=
  match database with
  | none => (some "database connection is nil", database)
  | some props =>
    match props.Connection with
    | none => (some "database connection is nil", database)
    | some conn =>
      match HashPassword bc Password with
      | .error err => (some err, database)
      | .ok hashedPassword =>
        match conn.ExecInsertUser Username hashedPassword with
        | (some err, conn1) => (some err, some { props with Connection := some conn1 })
        | (none, conn1) => (none, some { props with Connection := some conn1 })

end utils

/-! ## Package `handlers`: session.go -/

namespace handlers

def RoutesPointer : config.RouteConfig := config.Routes

/-- Go `SetSession(c, Store, key, value)`. -/
def SetSession (c : gin.Context) (key : String) (value : sessions.Value) :
    Option String × gin.Context :=
  match c.sessionErr with
  | some err => (some err, c)
  | none =>
    sessions.Save
      { c with session :=
          { c.session with
            Values := fun k => if k = key then some value else c.session.Values k } }

end handlers

/-! ## Package `authentication`: authentication.go -/

namespace authentication

structure authenticationHandlerProps where
  Database : Option utils.DataBaseProps

/-- Go `(*authenticationHandlerProps).PostLogin`: the context and the handler's
database after the call. Its redirects have the statuses 303 and 302, which gin
accepts, so `c.Redirect` cannot panic there and the context after the call is
`c.redirected`. -/
def PostLogin (bc : bcrypt.Impl) (prop : authenticationHandlerProps) (c : gin.Context) :
    gin.Context × authenticationHandlerProps :=
  match c.Request.ParseFormErr with
  | some _ =>
    (c.redirected http.StatusSeeOther handlers.RoutesPointer.MainLoginConfig.EmptyPathString,
      prop)
  | none =>
    let username := utils.TrimSpace
      (c.Request.PostForm handlers.RoutesPointer.Authentication.ParseKeys.UsernameParseKey)
    let password := utils.TrimSpace
      (c.Request.PostForm handlers.RoutesPointer.Authentication.ParseKeys.PasswordParseKey)
    match utils.FetchUserByUsername prop.Database username with
    | ((_, some err), database1) =>
      let errorMessage := fmt.Sprintf utils.UserNotFound username
      if err = errorMessage then
        (c.HTML http.StatusOK handlers.RoutesPointer.MainLoginConfig.PageName
            ((gin.H.empty.set utils.ErrorLoginHTML (.str errorMessage)).set "Username"
              (.str username)),
          { Database := database1 })
      else
        (c.String http.StatusInternalServerError "Internal Server Error",
          { Database := database1 })
    | ((authResult, none), database1) =>
      if !utils.ComparePassword bc password authResult.PasswordHash then
        (c.HTML http.StatusOK handlers.RoutesPointer.MainLoginConfig.PageName
            ((gin.H.empty.set utils.ErrorLoginHTML (.str utils.LoginError)).set "Username"
              (.str username)),
          { Database := database1 })
      else
        let c1 := (handlers.SetSession c handlers.RoutesPointer.Cookie.UserInfoKey
          (.user authResult)).2
        (c1.redirected http.StatusFound handlers.RoutesPointer.UserConfig.GetTask.Route,
          { Database := database1 })

/-- Go `(*authenticationHandlerProps).PostRegister`: the context and the handler's
database after the call. The branch on the error of `CreateNewUser` writes the
internal-error response and, having no `return`, goes on to the call of
`c.Redirect`. The redirects have the status 303, which gin accepts, so
`c.Redirect` cannot panic there and the context after the call is `c.redirected`. -/
def PostRegister (bc : bcrypt.Impl) (prop : authenticationHandlerProps) (c : gin.Context) :
    gin.Context × authenticationHandlerProps :=
  match c.Request.ParseFormErr with
  | some _ => (c.redirected http.StatusSeeOther "/register", prop)
  | none =>
    let registerForm := utils.NewRegisterForm
      (utils.TrimSpace (c.Request.PostForm "uname"))
      (utils.TrimSpace (c.Request.PostForm "pword"))
      (utils.TrimSpace (c.Request.PostForm "re-pword"))
    let data : gin.H := gin.H.empty
    let status : Nat := 0
    match utils.IsValidRegister prop.Database registerForm data with
    | (some _, data1, database1) =>
      (c.HTML status handlers.RoutesPointer.MainRegisterConfig.PageName data1,
        { Database := database1 })
    | (none, _, database1) =>
      match utils.CreateNewUser bc database1 registerForm.Username registerForm.Password with
      | (err, database2) =>
        let c1 := if err.isSome then
            c.String http.StatusInternalServerError "Internal Server Error"
          else c
        (c1.redirected http.StatusSeeOther handlers.RoutesPointer.MainLoginConfig.Path,
          { Database := database2 })

end authentication

/-! ## Package `strconv`, as the source uses it -/

namespace strconv

/-- The value of a run of decimal digits read after `acc`; `none` when a character is
not a digit. -/
def parseDigits : List Char → Nat → Option Nat
  | [], acc => some acc
  | c :: cs, acc =>
    if '0' ≤ c ∧ c ≤ '9' then parseDigits cs (acc * 10 + (c.toNat - '0'.toNat)) else none

/-- The integer a decimal text denotes: an optional sign followed by at least one
digit. -/
def parseDecimal : List Char → Option Int
  | [] => none
  | '-' :: ds => if ds.isEmpty then none else (parseDigits ds 0).map fun n => -(n : Int)
  | '+' :: ds => if ds.isEmpty then none else (parseDigits ds 0).map fun n => (n : Int)
  | ds => (parseDigits ds 0).map fun n => (n : Int)

/-- Go `strconv.Atoi(s)` with a 64-bit `int`: the value of a signed decimal text, an
error for any other text and for a value outside the range of `int`. -/
def Atoi (s : String) : Except String Int :=
  match parseDecimal s.data with
  | none => .error "strconv.Atoi: invalid syntax"
  | some n =>
    if -(2 : Int) ^ 63 ≤ n ∧ n ≤ (2 : Int) ^ 63 - 1 then .ok n
    else .error "strconv.Atoi: value out of range"

end strconv

/-! ## The statements on table `tasks` -/

namespace sql

/-- The integer the server reads a text parameter as when it is compared with or
stored in an integer column. -/
def integerOfText (s : String) : Option Int :=
  strconv.parseDecimal s.data

/-- Whether a row of `tasks` satisfies `user_id = $1` for the text parameter `userID`. -/
def TaskRow.ownedBy (row : TaskRow) (userID : String) : Bool :=
  integerOfText userID == some row.user_id

/-- Go `Query("SELECT description, id FROM tasks WHERE user_id = $1", userID)` followed
by the scan of every row: the pairs description, id in the order of the table. -/
def DB.QueryTasks (db : DB) (userID : String) : Except String (List (String × Int)) × DB :=
  match db.failing (.selectTasks userID) with
  | some e => (.error e, db.received (.selectTasks userID))
  | none =>
    (.ok ((db.tasks.filter fun r => r.ownedBy userID).map fun r => (r.description, r.id)),
      db.received (.selectTasks userID))

/-- Go `Exec("INSERT INTO tasks (user_id, description) VALUES ($1, $2)", userID, task)`:
the new row takes its id from the sequence, is not completed and takes its creation
time from the clock. A `userID` that is no integer and a description longer than
the 255 characters of the column are refused by the server. -/
def DB.ExecInsertTask (db : DB) (userID description : String) : Option String × DB :=
  match db.failing (.insertTask userID description) with
  | some e => (some e, db.received (.insertTask userID description))
  | none =>
    match integerOfText userID with
    | none =>
      (some "pq: invalid input syntax for type integer",
        db.received (.insertTask userID description))
    | some uid =>
      if description.length > 255 then
        (some "pq: value too long for type character varying(255)",
          db.received (.insertTask userID description))
      else
        (none,
          { (db.received (.insertTask userID description)) with
            tasks := db.tasks ++ [{ id := db.tasks_id_seq, user_id := uid,
                                    description := description, is_completed := false,
                                    created_at := db.now }]
            tasks_id_seq := db.tasks_id_seq + 1 })

/-- Go `Exec("DELETE FROM tasks WHERE user_id = $1 AND id = $2", userID, taskID)`. -/
def DB.ExecDeleteTask (db : DB) (userID : String) (taskID : Int) : Option String × DB :=
  match db.failing (.deleteTask userID taskID) with
  | some e => (some e, db.received (.deleteTask userID taskID))
  | none =>
    (none,
      { (db.received (.deleteTask userID taskID)) with
        tasks := db.tasks.filter fun r => !(r.ownedBy userID && r.id == taskID) })

end sql

/-! ## Package `utils`: `StrToInt` and the task operations of database.go -/

namespace utils

/-- Go `StrToInt(input)`: the integer, or -1 when the conversion fails. -/
def StrToInt (input : String) : Int :=
  match strconv.Atoi input with
  | .error _ => -1
  | .ok result => result

/-- Go `(*DataBaseProps).AddTask`. The method has no check of the connection: on a nil
`database` or a nil `database.Connection` the call of `Exec` dereferences nil, a
run-time panic, which is the `Except.error` of the result. -/
def AddTask (database : Option DataBaseProps) (userID task : String) :
    Except String (Option String × Option DataBaseProps) :=
  match database with
  | none => .error "runtime error: invalid memory address or nil pointer dereference"
  | some props =>
    match props.Connection with
    | none => .error "runtime error: invalid memory address or nil pointer dereference"
    | some conn =>
      match conn.ExecInsertTask userID task with
      | (some err, conn1) =>
        .ok (some (fmt.Sprintf "insert into error : %v" err),
          some { props with Connection := some conn1 })
      | (none, conn1) => .ok (none, some { props with Connection := some conn1 })

/-- Go `(*DataBaseProps).GetTasksFromDatabase`. -/
def GetTasksFromDatabase (database : Option DataBaseProps) (userID : String) :
    (List Task × Option String) × Option DataBaseProps :=
  match database with
  | none => (([], some "database connection is nil"), database)
  | some props =>
    match props.Connection with
    | none => (([], some "database connection is nil"), database)
    | some conn =>
      match conn.QueryTasks userID with
      | (.error err, conn1) =>
        (([], some (fmt.Sprintf "row query error : %v" err)),
          some { props with Connection := some conn1 })
      | (.ok rows, conn1) =>
        ((rows.map fun r => { TaskID := toString r.2, Description := r.1 }, none),
          some { props with Connection := some conn1 })

/-- Go `(*DataBaseProps).DeleteTask`. -/
def DeleteTask (database : Option DataBaseProps) (userID : String) (taskID : Int) :
    Option String × Option DataBaseProps :=
  match database with
  | none => (some "database connection is nil", database)
  | some props =>
    match props.Connection with
    | none => (some "database connection is nil", database)
    | some conn =>
      match conn.ExecDeleteTask userID taskID with
      | (some err, conn1) =>
        (some (fmt.Sprintf "row delete error: %v" err),
          some { props with Connection := some conn1 })
      | (none, conn1) => (none, some { props with Connection := some conn1 })

end utils

/-! ## Package `handlers`: the readers of session.go -/

namespace handlers

/-- Go `GetUserFromSession(c, Store)`: the `*utils.User` under the user key and whether
the type assertion held; `(nil, false)` when `Store.Get` fails. -/
def GetUserFromSession (c : gin.Context) : Option utils.User × Bool :=
  match c.sessionErr with
  | some _ => (none, false)
  | none =>
    match c.session.Values RoutesPointer.Cookie.UserInfoKey with
    | some (.userPtr u) => (some u, true)
    | _ => (none, false)

/-- Go `GetSessionAndUser(c, Store)`: the session, the `*utils.User` under the user key
and whether the type assertion held; `(nil, nil, false)` when `Store.Get` fails. -/
def GetSessionAndUser (c : gin.Context) :
    Option sessions.Session × Option utils.User × Bool :=
  match c.sessionErr with
  | some _ => (none, none, false)
  | none =>
    match c.session.Values RoutesPointer.Cookie.UserInfoKey with
    | some (.userPtr u) => (some c.session, some u, true)
    | _ => (some c.session, none, false)

end handlers

/-! ## Package `middleware`: middleware.go -/

namespace middleware

/-- Go `(*authHandler).Auth`. `next` is `c.Next()`, the rest of the handler chain; it acts
on the context and on the state `s` of the handlers behind it. The result is
`Except.error` when the run ends in a panic, as it does in the branch without a
session user, whose `c.Redirect` has the status 401. The middleware never calls
`c.Abort()`; its `fmt.Printf` of a save error goes to the console and is left out. -/
def Auth {σ : Type} (next : gin.Context → σ → Except String (gin.Context × σ))
    (c : gin.Context) (s : σ) : Except String (gin.Context × σ) :=
  match handlers.GetSessionAndUser c with
  | (_, _, false) =>
    (c.Redirect http.StatusUnauthorized
      handlers.RoutesPointer.UserConfig.GetTask.RedirectPath).map fun c1 => (c1, s)
  | (none, _, true) => .error "runtime error: invalid memory address or nil pointer dereference"
  | (some session, _, true) =>
    match sessions.Save
        { c with session :=
            { session with MaxAge := handlers.RoutesPointer.Authentication.SessionTime } } with
    | (some err, c1) => .ok (c1.String http.StatusInternalServerError err, s)
    | (none, c1) => next c1 s

/-- Go `(*authHandler).Logout`; `Except.error` when the run ends in a panic, as it does
in the branch without a session user, whose `c.Redirect` has the status 401. -/
def Logout (c : gin.Context) : Except String gin.Context :=
  match handlers.GetSessionAndUser c with
  | (_, _, false) =>
    c.Redirect http.StatusUnauthorized handlers.RoutesPointer.UserConfig.GetTask.RedirectPath
  | (none, _, true) => .error "runtime error: invalid memory address or nil pointer dereference"
  | (some session, _, true) =>
    match sessions.Save
        { c with session :=
            { session with MaxAge := handlers.RoutesPointer.MainLoginConfig.SessionTimeOut } } with
    | (some err, c1) => .ok (c1.String http.StatusInternalServerError err)
    | (none, c1) => c1.Redirect http.StatusFound handlers.RoutesPointer.MainLoginConfig.Path

end middleware

/-! ## Package `task`: task.go -/

namespace task

structure taskHandleProps where
  Database : Option utils.DataBaseProps

/-- Go `(*taskHandleProps).GetTasks`: the context and the handler's database after the
call, or `Except.error` when the run ends in a panic, as it does in the branch
without a session user, whose `c.Redirect` has the status 401. -/
def GetTasks (prop : taskHandleProps) (c : gin.Context) :
    Except String (gin.Context × taskHandleProps) :=
  match handlers.GetUserFromSession c with
  | (_, false) =>
    (c.Redirect http.StatusUnauthorized
      handlers.RoutesPointer.UserConfig.GetTask.RedirectPath).map fun c1 => (c1, prop)
  | (none, true) => .error "runtime error: invalid memory address or nil pointer dereference"
  | (some userInterface, true) =>
    match utils.GetTasksFromDatabase prop.Database userInterface.ID with
    | ((_, some _), database1) =>
      .ok (c.String http.StatusInternalServerError "Internal Server Error",
        { Database := database1 })
    | ((UserTasks, none), database1) =>
      .ok (c.HTML http.StatusOK handlers.RoutesPointer.UserConfig.GetTask.HTMLPageName
          ((gin.H.empty.set "tasks"
              (.tasks { Tasks := UserTasks, UserID := utils.StrToInt userInterface.ID })).set
            "Username" (.str userInterface.Username)),
        { Database := database1 })

/-- Go `(*taskHandleProps).CreateTask`; `Except.error` when the run ends in a panic: in
the branch without a session user, whose `c.Redirect` has the status 401, and when
`AddTask` dereferences nil. -/
def CreateTask (prop : taskHandleProps) (c : gin.Context) :
    Except String (gin.Context × taskHandleProps) :=
  match handlers.GetUserFromSession c with
  | (_, false) =>
    (c.Redirect http.StatusUnauthorized
      handlers.RoutesPointer.UserConfig.GetTask.RedirectPath).map fun c1 => (c1, prop)
  | (none, true) => .error "runtime error: invalid memory address or nil pointer dereference"
  | (some userInterface, true) =>
    match c.Request.ParseFormErr with
    | some _ =>
      (c.Redirect http.StatusSeeOther handlers.RoutesPointer.UserConfig.GetTask.Route).map
        fun c1 => (c1, prop)
    | none =>
      let task := utils.TrimSpace (c.Request.PostForm "taskTitle")
      match utils.AddTask prop.Database userInterface.ID task with
      | .error panicValue => .error panicValue
      | .ok (some _, database1) =>
        .ok (c.String http.StatusInternalServerError "Failed to add task",
          { Database := database1 })
      | .ok (none, database1) =>
        (c.Redirect http.StatusFound
            handlers.RoutesPointer.UserConfig.DeleteTask.RedirectPath).map
          fun c1 => (c1, { Database := database1 })

/-- Go `(*taskHandleProps).DeleteTask`; `Except.error` when the run ends in a panic, as
it does in the branch without a session user, whose `c.Redirect` has the status
401. -/
def DeleteTask (prop : taskHandleProps) (c : gin.Context) :
    Except String (gin.Context × taskHandleProps) :=
  match handlers.GetUserFromSession c with
  | (_, false) =>
    (c.Redirect http.StatusUnauthorized
      handlers.RoutesPointer.UserConfig.GetTask.RedirectPath).map fun c1 => (c1, prop)
  | (none, true) => .error "runtime error: invalid memory address or nil pointer dereference"
  | (some userInterface, true) =>
    match c.Request.ParseFormErr with
    | some _ =>
      (c.Redirect http.StatusSeeOther
        handlers.RoutesPointer.UserConfig.GetTask.RedirectPath).map fun c1 => (c1, prop)
    | none =>
      let taskIDstr := utils.TrimSpace (c.Request.PostForm "TaskID")
      let taskID := utils.StrToInt taskIDstr
      if taskID = -1 then
        .ok (c.String http.StatusInternalServerError "Internal Server Error", prop)
      else
        match utils.DeleteTask prop.Database userInterface.ID taskID with
        | (some _, database1) =>
          .ok (c.String http.StatusInternalServerError "Failed to delete task",
            { Database := database1 })
        | (none, database1) =>
          (c.Redirect http.StatusFound
              handlers.RoutesPointer.UserConfig.DeleteTask.RedirectPath).map
            fun c1 => (c1, { Database := database1 })

end task

/-! ## Vocabulary of the statements about validation -/

/-- The password holds a Latin letter, `a`-`z` or `A`-`Z`. -/
def hasLatinLetter (s : String) : Prop :=
  ∃ c ∈ s.data, ('a' ≤ c ∧ c ≤ 'z') ∨ ('A' ≤ c ∧ c ≤ 'Z')

/-- The password holds a decimal digit, `0`-`9`. -/
def hasDigit (s : String) : Prop :=
  ∃ c ∈ s.data, '0' ≤ c ∧ c ≤ '9'

/-- The string holds a white-space character (space, tab, newline, ...). -/
def hasWhitespace (s : String) : Prop :=
  ∃ c ∈ s.data, unicode.IsSpace c = true

instance (s : String) : Decidable (hasLatinLetter s) := by
  unfold hasLatinLetter; infer_instance

instance (s : String) : Decidable (hasDigit s) := by
  unfold hasDigit; infer_instance

instance (s : String) : Decidable (hasWhitespace s) := by
  unfold hasWhitespace; infer_instance

/-- The error of the lower length bound. -/
def lengthMinError : String := "Password length must be at least 8"

/-- The error of the upper length bound. -/
def lengthMaxError : String := "Password length must be at most 64"

/-! ## Vocabulary of the statements about the handlers -/

/-- The username a registration or login request submits, as the handlers read it:
the form value `uname`, trimmed. -/
def submittedUsername (c : gin.Context) : String :=
  utils.TrimSpace (c.Request.PostForm "uname")

/-- The password a registration or login request submits: the form value `pword`,
trimmed. -/
def submittedPassword (c : gin.Context) : String :=
  utils.TrimSpace (c.Request.PostForm "pword")

/-- The registration form `PostRegister` builds from a request. -/
def submittedForm (c : gin.Context) : utils.RegisterForm :=
  { Username := submittedUsername c, Password := submittedPassword c,
    Re_Password := utils.TrimSpace (c.Request.PostForm "re-pword") }

/-- The login page with the message that user `u` was not found and `u` put back. -/
def userNotFoundPage (u : String) : gin.Response :=
  .HTML 200 "login.html"
    ((gin.H.empty.set "LoginError" (.str ("User " ++ u ++ " not found"))).set "Username"
      (.str u))

/-- The login page with the fixed message for a failed verification and `u` put back. -/
def loginErrorPage (u : String) : gin.Response :=
  .HTML 200 "login.html"
    ((gin.H.empty.set "LoginError" (.str "Incorrect username or password")).set "Username"
      (.str u))

/-- The lookup of `u` runs and finds no row: there is a connection, the server runs
the SELECT, and no row of `users` has username `u`. -/
def lookupFindsNoRow (database : Option utils.DataBaseProps) (u : String) : Prop :=
  ∃ props conn, database = some props ∧ props.Connection = some conn ∧
    conn.failing (.selectUser u) = none ∧ ∀ row ∈ conn.users, row.username ≠ u

/-- The internal-error response of the handlers. -/
def internalErrorResponse : gin.Response :=
  .String 500 "Internal Server Error"

/-! ## Concrete servers and requests for the instances -/

/-- A stand-in for bcrypt with a fixed salt, for evaluating the handlers. -/
def sampleBcrypt : bcrypt.Impl :=
  { GenerateFromPassword := fun password _ => .ok ("$2a$10$" ++ password)
    CompareHashAndPassword := fun hashedPassword password =>
      if hashedPassword = "$2a$10$" ++ password then none
      else some "crypto/bcrypt: hashedPassword is not the hash of the given password" }

/-- A server with the given `users` rows on which every statement runs. -/
def sampleDB (users : List sql.UserRow) : sql.DB :=
  { users := users, tasks := [], users_id_seq := 100, tasks_id_seq := 100,
    now := "2024-05-01 10:00:00", failing := fun _ => none, log := [] }

/-- A server with the given `users` rows that answers an INSERT into `users` with an
error (the role has no INSERT privilege) and runs every other statement. -/
def insertRefusingDB (users : List sql.UserRow) : sql.DB :=
  { sampleDB users with
    failing := fun s =>
      match s with
      | .insertUser _ _ => some "pq: permission denied for table users"
      | _ => none }

/-- The row of user `bob`, whose password is `hunter22a`. -/
def bobRow : sql.UserRow :=
  { id := 1, username := "bob", passwordhash := "$2a$10$hunter22a",
    creation_time := "2024-04-01 09:00:00" }

/-- A request without a session cookie whose form parses and holds the three values. -/
def sampleRequest (uname pword repword : String) : gin.Context :=
  { Request :=
      { ParseFormErr := none
        PostForm := fun key =>
          if key = "uname" then uname else if key = "pword" then pword
          else if key = "re-pword" then repword else "" }
    session := { Values := fun _ => none, MaxAge := 300 }
    sessionErr := none, saveErr := none, saved := [], written := [] }

/-! ## Vocabulary and concrete data of the statements about sessions and tasks -/

/-- No usable connection: a nil database or a nil connection handle. -/
def noUsableConnection (database : Option utils.DataBaseProps) : Prop :=
  database = none ∨ ∃ props, database = some props ∧ props.Connection = none

/-- The error every checked operation returns without a usable connection. -/
def connectionNilError : String := "database connection is nil"

/-- The user `bob` as a session holds it. -/
def bobUser : utils.User :=
  { Username := "bob", PasswordHash := "$2a$10$hunter22a", ID := "1",
    creationTime := "2024-04-01 09:00:00" }

/-- A request whose cookie decodes to a session holding user `u`, whose form parses and
holds the values `TaskID` and `taskTitle`. -/
def sessionRequest (u : utils.User) (taskID taskTitle : String) : gin.Context :=
  { Request :=
      { ParseFormErr := none
        PostForm := fun key =>
          if key = "TaskID" then taskID else if key = "taskTitle" then taskTitle else "" }
    session :=
      { Values := fun key => if key = "user" then some (.userPtr u) else none, MaxAge := 300 }
    sessionErr := none, saveErr := none, saved := [], written := [] }

/-- Two tasks, one of user 1 and one of user 2. -/
def sampleTasks : List sql.TaskRow :=
  [{ id := 10, user_id := 1, description := "buy milk", is_completed := false,
     created_at := "2024-04-02 08:00:00" },
   { id := 11, user_id := 2, description := "call home", is_completed := false,
     created_at := "2024-04-03 08:00:00" }]

/-- A server holding `bob` and the two tasks, on which every statement runs. -/
def sampleTaskDB : sql.DB :=
  { sampleDB [bobRow] with tasks := sampleTasks }

/-- The task id a delete request submits, as the handler reads it: the form value
`TaskID`, trimmed. -/
def submittedTaskID (c : gin.Context) : String :=
  utils.TrimSpace (c.Request.PostForm "TaskID")

/-- A password of 5 characters and 8 bytes. -/
def shortCyrillicPassword : String := "пар1a"

/-- A password of 33 characters and 66 bytes. -/
def longCyrillicPassword : String := "яяяяяяяяяяяяяяяяяяяяяяяяяяяяяяяяя"

/-! ## Lemmas on the library models -/

theorem containsChars_singleton (a : Char) (l : List Char) :
    strings.containsChars l [a] = true ↔ a ∈ l := by
  induction l with
  | nil => simp [strings.containsChars]
  | cons c l ih =>
    simp only [strings.containsChars, strings.startsWith, Bool.or_eq_true, ih,
      Bool.and_eq_true, beq_iff_eq, List.mem_cons]
    constructor
    · rintro (⟨h, -⟩ | h)
      · exact Or.inl h.symm
      · exact Or.inr h
    · rintro (h | h)
      · exact Or.inl ⟨h.symm, by cases l <;> trivial⟩
      · exact Or.inr h

theorem ContainSpace_iff (s : String) : utils.ContainSpace s = true ↔ ' ' ∈ s.data := by
  unfold utils.ContainSpace strings.Contains
  exact containsChars_singleton ' ' s.data

theorem Match_Latin (s : String) :
    regexp.Match utils.LatinRegexp s =
      .ok (s.data.any fun c => decide ('a' ≤ c ∧ c ≤ 'z') || decide ('A' ≤ c ∧ c ≤ 'Z')) := by
  simp [regexp.Match, utils.LatinRegexp, regexp.parseRanges]

theorem Match_Digits (s : String) :
    regexp.Match utils.DigitsRegexp s = .ok (s.data.any fun c => decide ('0' ≤ c ∧ c ≤ '9')) := by
  simp [regexp.Match, utils.DigitsRegexp, regexp.parseRanges]

theorem Match_Latin_true_iff (s : String) :
    regexp.Match utils.LatinRegexp s = .ok true ↔ hasLatinLetter s := by
  rw [Match_Latin]
  simp [hasLatinLetter]

theorem Match_Digits_true_iff (s : String) :
    regexp.Match utils.DigitsRegexp s = .ok true ↔ hasDigit s := by
  rw [Match_Digits]
  simp [hasDigit]

/-! ## Validation lemmas -/

theorem lengthMinError_eq :
    fmt.Sprintf "Password length must be at least %d" (toString 8) = lengthMinError := by
  decide

theorem lengthMaxError_eq :
    fmt.Sprintf "Password length must be at most %d" (toString 64) = lengthMaxError := by
  decide

theorem Match_Latin_false (s : String) (h : ¬ hasLatinLetter s) :
    regexp.Match utils.LatinRegexp s = .ok false := by
  rw [Match_Latin]
  congr 1
  rw [Bool.eq_false_iff]
  intro hc
  exact h ((Match_Latin_true_iff s).1 (by rw [Match_Latin, hc]))

theorem Match_Digits_false (s : String) (h : ¬ hasDigit s) :
    regexp.Match utils.DigitsRegexp s = .ok false := by
  rw [Match_Digits]
  congr 1
  rw [Bool.eq_false_iff]
  intro hc
  exact h ((Match_Digits_true_iff s).1 (by rw [Match_Digits, hc]))

/-- The password validator on equal arguments, as a chain of the five rules. -/
theorem IsValidPassword_same (pw : String) :
    utils.IsValidPassword pw pw =
      if pw.utf8ByteSize < 8 then some lengthMinError
      else if 64 < pw.utf8ByteSize then some lengthMaxError
      else if ¬ hasLatinLetter pw then some utils.LatinError
      else if ¬ hasDigit pw then some utils.DigitError
      else if ' ' ∈ pw.data then some utils.SpaceError
      else none := by
  unfold utils.IsValidPassword
  simp only [ne_eq, not_true_eq_false, if_false, utils.MinLength, utils.MaxLength, gt_iff_lt]
  rw [lengthMinError_eq, lengthMaxError_eq]
  by_cases h1 : pw.utf8ByteSize < 8
  · simp [h1]
  by_cases h2 : 64 < pw.utf8ByteSize
  · simp [h1, h2]
  by_cases h3 : hasLatinLetter pw
  · by_cases h4 : hasDigit pw
    · rw [(Match_Latin_true_iff pw).2 h3, (Match_Digits_true_iff pw).2 h4]
      by_cases h5 : ' ' ∈ pw.data
      · simp [h1, h2, h3, h4, h5, (ContainSpace_iff pw).2 h5]
      · have : utils.ContainSpace pw = false := by
          rw [Bool.eq_false_iff]; exact fun h => h5 ((ContainSpace_iff pw).1 h)
        simp [h1, h2, h3, h4, h5, this]
    · rw [(Match_Latin_true_iff pw).2 h3, Match_Digits_false pw h4]
      simp [h1, h2, h3, h4]
  · rw [Match_Latin_false pw h3]
    simp [h1, h2, h3]

theorem IsValidPassword_mismatch (pw confirmPw : String) (h : pw ≠ confirmPw) :
    utils.IsValidPassword pw confirmPw = some utils.PasswordNotMatch := by
  unfold utils.IsValidPassword
  simp [h]

/-! ## C1: the first failing rule decides the error -/

/-- C1: `IsValidPassword` returns the error of the first failing rule in the order
mismatch, length, Latin letter, digit: a mismatch gives "Passwords do not match"
whatever else is wrong; equal arguments of a byte length outside [8,64] give a
length error whatever the characters; a length in range without a Latin letter
gives the Latin-letter error even without a digit; the digit error is returned
exactly when the arguments are equal, the length is in range, a Latin letter is
present and no digit is. The result is `nil` or one single message of the fixed
list, never an aggregate. -/
theorem IsValidPassword_first_failing_rule (pw confirmPw : String) :
    (pw ≠ confirmPw → utils.IsValidPassword pw confirmPw = some utils.PasswordNotMatch) ∧
    (pw = confirmPw → pw.utf8ByteSize < 8 →
      utils.IsValidPassword pw confirmPw = some lengthMinError) ∧
    (pw = confirmPw → 64 < pw.utf8ByteSize →
      utils.IsValidPassword pw confirmPw = some lengthMaxError) ∧
    (pw = confirmPw → 8 ≤ pw.utf8ByteSize → pw.utf8ByteSize ≤ 64 → ¬ hasLatinLetter pw →
      utils.IsValidPassword pw confirmPw = some utils.LatinError) ∧
    (utils.IsValidPassword pw confirmPw = some utils.DigitError ↔
      pw = confirmPw ∧ 8 ≤ pw.utf8ByteSize ∧ pw.utf8ByteSize ≤ 64 ∧
        hasLatinLetter pw ∧ ¬ hasDigit pw) ∧
    utils.IsValidPassword pw confirmPw ∈
      [none, some utils.PasswordNotMatch, some lengthMinError, some lengthMaxError,
        some utils.LatinError, some utils.DigitError, some utils.SpaceError] := by
  by_cases hne : pw = confirmPw
  · subst hne
    rw [IsValidPassword_same]
    have d1 : lengthMinError ≠ utils.DigitError := by decide
    have d2 : lengthMaxError ≠ utils.DigitError := by decide
    have d3 : utils.LatinError ≠ utils.DigitError := by decide
    have d4 : utils.SpaceError ≠ utils.DigitError := by decide
    refine ⟨fun h => absurd rfl h, ?_, ?_, ?_, ?_, ?_⟩
    · intro _ h; simp [h]
    · intro _ h
      have : ¬ pw.utf8ByteSize < 8 := by omega
      simp [h, this]
    · intro _ h1 h2 h3
      have a : ¬ pw.utf8ByteSize < 8 := by omega
      have b : ¬ 64 < pw.utf8ByteSize := by omega
      simp [a, b, h3]
    · by_cases h1 : pw.utf8ByteSize < 8
      · simp only [h1, if_true, Option.some.injEq, d1, true_and, false_iff]
        omega
      by_cases h2 : 64 < pw.utf8ByteSize
      · simp only [h1, h2, if_true, if_false, Option.some.injEq, d2, true_and, false_iff]
        omega
      by_cases h3 : hasLatinLetter pw
      · by_cases h4 : hasDigit pw
        · by_cases h5 : ' ' ∈ pw.data
          · simp [h1, h2, h3, h4, h5, d4]
          · simp [h1, h2, h3, h4, h5]
        · simp only [h1, h2, h3, h4, not_true_eq_false, not_false_eq_true, if_true, if_false,
            true_and, and_true, true_iff]
          omega
      · simp [h1, h2, h3, d3]
    · split_ifs <;> simp
  · have := IsValidPassword_mismatch pw confirmPw hne
    refine ⟨fun _ => this, fun h => absurd h hne, fun h => absurd h hne,
      fun h => absurd h hne, ?_, ?_⟩
    · rw [this]
      have d : utils.PasswordNotMatch ≠ utils.DigitError := by decide
      simp [hne, d]
    · rw [this]; simp

/-- C1 at concrete inputs: a mismatching short password without letters reports the
mismatch, and an in-range password of punctuation only reports the Latin-letter rule. -/
theorem IsValidPassword_first_failing_rule_witness :
    utils.IsValidPassword "1 2" "1 3" = some utils.PasswordNotMatch ∧
    utils.IsValidPassword "?!?!?!?!" "?!?!?!?!" = some utils.LatinError :=
  ⟨(IsValidPassword_first_failing_rule "1 2" "1 3").1 (by decide),
   (IsValidPassword_first_failing_rule "?!?!?!?!" "?!?!?!?!").2.2.2.1 rfl (by decide) (by decide)
     (by decide)⟩

/-! ## C2: the spec's example `"short"` against `"SHORT1"` -/

/-- C2 as stated fails: `IsValidPassword("short", "SHORT1")` is not a length error. -/
theorem IsValidPassword_short_SHORT1_not_length :
    utils.IsValidPassword "short" "SHORT1" ≠ some lengthMinError ∧
    utils.IsValidPassword "short" "SHORT1" ≠ some lengthMaxError := by
  decide

/-- C2 amended: `IsValidPassword("short", "SHORT1")` returns "Passwords do not match",
the two arguments being different; the length error (shorter than 8) is what
`IsValidPassword("short", "short")` returns. -/
theorem IsValidPassword_short_SHORT1 :
    utils.IsValidPassword "short" "SHORT1" = some utils.PasswordNotMatch ∧
    utils.IsValidPassword "short" "short" = some lengthMinError := by
  decide

/-! ## C3, C4: white space other than the space character -/

/-- C3: the password `passw<TAB>ord1` holds a white-space character and satisfies the
four earlier rules, and `IsValidPassword` accepts it: only U+0020 is looked for. -/
theorem IsValidPassword_accepts_tab :
    hasWhitespace "passw\tord1" ∧
    utils.IsValidPassword "passw\tord1" "passw\tord1" = none :=
  ⟨⟨'\t', by decide, by decide⟩, by decide⟩

/-- C4: the username `a<TAB>b` holds a white-space character and `IsValidUsername`
accepts it, while a username with a space character is rejected. -/
theorem IsValidUsername_accepts_tab :
    hasWhitespace "a\tb" ∧ utils.IsValidUsername "a\tb" = none ∧
    utils.IsValidUsername "a b" = some utils.UsernameContainsSpace :=
  ⟨⟨'\t', by decide, by decide⟩, by decide, by decide⟩

/-! ## C5: valid passwords are accepted -/

/-- C5: a password whose byte length is in [8,64], with a Latin letter, a digit and no
white space, is accepted by `IsValidPassword(pw, pw)`; and for the converse,
`IsValidPassword("password", "password")` returns the digit error. -/
theorem IsValidPassword_accepts_valid (pw : String)
    (hmin : 8 ≤ pw.utf8ByteSize) (hmax : pw.utf8ByteSize ≤ 64)
    (hlatin : hasLatinLetter pw) (hdigit : hasDigit pw) (hspace : ¬ hasWhitespace pw) :
    utils.IsValidPassword pw pw = none ∧
    utils.IsValidPassword "password" "password" = some utils.DigitError := by
  refine ⟨?_, by decide⟩
  rw [IsValidPassword_same]
  have a : ¬ pw.utf8ByteSize < 8 := by omega
  have b : ¬ 64 < pw.utf8ByteSize := by omega
  have c : ' ' ∉ pw.data := fun h => hspace ⟨' ', h, by decide⟩
  simp [a, b, hlatin, hdigit, c]

/-- C5 at the password `password1`. -/
theorem IsValidPassword_accepts_valid_witness :
    utils.IsValidPassword "password1" "password1" = none :=
  (IsValidPassword_accepts_valid "password1" (by decide) (by decide)
    ⟨'p', by decide, by decide⟩ ⟨'1', by decide, by decide⟩
    (by decide)).1

/-! ## Lemmas on the persistence operations -/

theorem Sprintf_UserNotFound (u : String) :
    fmt.Sprintf utils.UserNotFound u = "User " ++ u ++ " not found" := by
  apply String.ext
  simp [fmt.Sprintf, utils.UserNotFound, fmt.sprintfChars]

theorem DoesUserExist_connected (props : utils.DataBaseProps) (conn : sql.DB) (u : String)
    (hconn : props.Connection = some conn) (hrun : conn.failing (.selectOne u) = none) :
    utils.DoesUserExist (some props) u =
      (((conn.userByUsername u).isSome, none),
        some { props with Connection := some (conn.received (.selectOne u)) }) := by
  unfold utils.DoesUserExist sql.DB.QueryRowOne
  simp only [hconn, hrun]
  cases conn.userByUsername u <;> simp

theorem userByUsername_isSome (conn : sql.DB) (u : String) :
    (conn.userByUsername u).isSome = true ↔ ∃ row ∈ conn.users, row.username = u := by
  unfold sql.DB.userByUsername
  rw [List.find?_isSome]
  simp

/-! ## C6: the order of the registration checks -/

/-- C6: `IsValidRegister` checks username taken, username format, password rules, in this
order, and stops at the first failure. When the username exists the error is
"User already exists" under the username-error key, whatever the username and
password look like; when it does not exist and the username is malformed the
username-format error is reported under the same key, whatever the password looks
like; a password error is put under the password-error key only when the two
earlier checks pass, and then it is the error of `IsValidPassword`. In each of the
three cases the page data is the given data with the submitted form under the form
key and the failing field's error key set, the other error key being left as it
was; and whenever the existence query has run and `IsValidRegister` returns an
error, the submitted form is under the form key. -/
theorem IsValidRegister_first_failure (database : Option utils.DataBaseProps)
    (UserInput : utils.RegisterForm) (data : gin.H) :
    ((utils.DoesUserExist database UserInput.Username).1 = (true, none) →
      (utils.IsValidRegister database UserInput data).1 = some utils.UserAlreadyExistError ∧
      (utils.IsValidRegister database UserInput data).2.1 =
        (data.set utils.ErrorUsernameHTML (.str utils.UserAlreadyExistError)).set
          utils.Form (.form UserInput) ∧
      (utils.IsValidRegister database UserInput data).2.1.get utils.ErrorPasswordHTML =
        data.get utils.ErrorPasswordHTML) ∧
    ((utils.DoesUserExist database UserInput.Username).1 = (false, none) →
      ∀ err, utils.IsValidUsername UserInput.Username = some err →
      (utils.IsValidRegister database UserInput data).1 = some utils.UsernameContainsSpace ∧
      (utils.IsValidRegister database UserInput data).2.1 =
        (data.set utils.ErrorUsernameHTML (.str utils.UsernameContainsSpace)).set
          utils.Form (.form UserInput) ∧
      (utils.IsValidRegister database UserInput data).2.1.get utils.ErrorPasswordHTML =
        data.get utils.ErrorPasswordHTML) ∧
    ((utils.DoesUserExist database UserInput.Username).1 = (false, none) →
      utils.IsValidUsername UserInput.Username = none →
      ∀ err, utils.IsValidPassword UserInput.Password UserInput.Re_Password = some err →
      (utils.IsValidRegister database UserInput data).1 = some err ∧
      (utils.IsValidRegister database UserInput data).2.1 =
        (data.set utils.ErrorPasswordHTML (.str err)).set utils.Form (.form UserInput) ∧
      (utils.IsValidRegister database UserInput data).2.1.get utils.ErrorUsernameHTML =
        data.get utils.ErrorUsernameHTML) ∧
    ((utils.IsValidRegister database UserInput data).2.1.get utils.ErrorPasswordHTML ≠
        data.get utils.ErrorPasswordHTML →
      (utils.DoesUserExist database UserInput.Username).1 = (false, none) ∧
      utils.IsValidUsername UserInput.Username = none ∧
      utils.IsValidPassword UserInput.Password UserInput.Re_Password =
        (utils.IsValidRegister database UserInput data).1 ∧
      (utils.IsValidRegister database UserInput data).1 ≠ none) ∧
    (∀ err, (utils.IsValidRegister database UserInput data).1 = some err →
      (utils.DoesUserExist database UserInput.Username).1.2 = none →
      (utils.IsValidRegister database UserInput data).2.1.get utils.Form =
        some (.form UserInput)) := by
  unfold utils.IsValidRegister
  rcases hex : utils.DoesUserExist database UserInput.Username with ⟨⟨b, e⟩, db1⟩
  have hk1 : utils.ErrorPasswordHTML ≠ utils.Form := by decide
  have hk2 : utils.ErrorPasswordHTML ≠ utils.ErrorUsernameHTML := by decide
  have hk3 : utils.ErrorUsernameHTML ≠ utils.Form := by decide
  cases e with
  | some e => simp
  | none =>
    cases b with
    | true => simp [gin.H.set, hk1, hk2]
    | false =>
      have hname : ∀ err, utils.IsValidUsername UserInput.Username = some err →
          err = utils.UsernameContainsSpace := by
        intro err h
        unfold utils.IsValidUsername at h
        split_ifs at h
        exact (Option.some.inj h).symm
      cases hu : utils.IsValidUsername UserInput.Username with
      | some err =>
        have := hname err hu
        subst this
        simp [gin.H.set, hk1, hk2]
      | none =>
        cases hp : utils.IsValidPassword UserInput.Password UserInput.Re_Password with
        | some err => simp [gin.H.set, hk3, hk2.symm]
        | none => simp

/-- C6 at a registration whose username is taken and malformed and whose passwords
differ: the error is "User already exists". -/
theorem IsValidRegister_first_failure_witness :
    (utils.IsValidRegister
        (some { Connection := some (sampleDB [{ bobRow with username := "bo b" }]) })
        { Username := "bo b", Password := "a b", Re_Password := "c" } gin.H.empty).1 =
      some utils.UserAlreadyExistError :=
  ((IsValidRegister_first_failure
      (some { Connection := some (sampleDB [{ bobRow with username := "bo b" }]) })
      { Username := "bo b", Password := "a b", Re_Password := "c" } gin.H.empty).1
    (by decide)).1

/-! ## C7: registering a taken username -/

/-- C7: when the form parses, the existence query runs and the submitted username has a
row in `users`, `PostRegister` renders the registration page with "User already
exists" under the username-error key and the form put back, writes nothing else,
and leaves the database as it was except for the one SELECT it has received: the
`users` table is unchanged and no INSERT was sent. -/
theorem PostRegister_existing_username (bc : bcrypt.Impl) (props : utils.DataBaseProps)
    (conn : sql.DB) (c : gin.Context)
    (hconn : props.Connection = some conn)
    (hparse : c.Request.ParseFormErr = none)
    (hrun : conn.failing (.selectOne (submittedUsername c)) = none)
    (hexists : ∃ row ∈ conn.users, row.username = submittedUsername c) :
    (authentication.PostRegister bc { Database := some props } c).1.written =
      c.written ++ [gin.Response.HTML 0 "register.html"
        ((gin.H.empty.set "UserExistError" (.str "User already exists")).set "Form"
          (.form (submittedForm c)))] ∧
    (authentication.PostRegister bc { Database := some props } c).2.Database =
      some { props with
        Connection := some { conn with
          log := conn.log ++ [sql.Stmt.selectOne (submittedUsername c)] } } := by
  have hex := DoesUserExist_connected props conn (submittedUsername c) hconn hrun
  rw [(userByUsername_isSome conn (submittedUsername c)).2 hexists] at hex
  unfold submittedUsername at hex
  unfold authentication.PostRegister utils.IsValidRegister
  simp only [hparse, utils.NewRegisterForm, hex]
  exact ⟨rfl, rfl⟩

/-- C7 at a second registration of `bob`: the page reports the taken username, the
table still holds the one row and the only statement received is the SELECT. -/
theorem PostRegister_existing_username_witness :
    (authentication.PostRegister sampleBcrypt
        { Database := some { Connection := some (sampleDB [bobRow]) } }
        (sampleRequest "bob" "passw0rd1" "passw0rd1")).2.Database =
      some { Connection := some { sampleDB [bobRow] with log := [sql.Stmt.selectOne "bob"] } } :=
  (PostRegister_existing_username sampleBcrypt { Connection := some (sampleDB [bobRow]) }
    (sampleDB [bobRow]) (sampleRequest "bob" "passw0rd1" "passw0rd1") rfl rfl rfl
    ⟨bobRow, by decide, by decide⟩).2

/-! ## C8: a failing `CreateNewUser` -/

/-- The calls `PostRegister` makes on the writer when a registration passes
`IsValidRegister` and `CreateNewUser` then returns an error: `c.String` with the
internal error, then `c.Redirect` to `/login`. -/
theorem PostRegister_create_error_calls (bc : bcrypt.Impl)
    (prop : authentication.authenticationHandlerProps) (c : gin.Context) (err : String)
    (hparse : c.Request.ParseFormErr = none)
    (hvalid : (utils.IsValidRegister prop.Database (submittedForm c) gin.H.empty).1 = none)
    (hcreate : (utils.CreateNewUser bc
        (utils.IsValidRegister prop.Database (submittedForm c) gin.H.empty).2.2
        (submittedUsername c) (submittedPassword c)).1 = some err) :
    (authentication.PostRegister bc prop c).1.written =
      c.written ++ [internalErrorResponse, gin.Response.Redirect 303 "/login"] := by
  unfold authentication.PostRegister
  unfold submittedForm submittedUsername submittedPassword at hvalid hcreate
  simp only [hparse, utils.NewRegisterForm]
  rcases hv : utils.IsValidRegister prop.Database _ gin.H.empty with ⟨e, data1, db1⟩
  rw [hv] at hvalid hcreate
  simp only at hvalid hcreate
  subst hvalid
  simp only
  simp [hcreate, gin.Context.redirected, gin.Context.String, internalErrorResponse,
    http.StatusInternalServerError, http.StatusSeeOther, handlers.RoutesPointer, config.Routes]

/-- The calls `PostRegister` makes on the writer when the user is created: the redirect
to `/login` alone. -/
theorem PostRegister_created_calls (bc : bcrypt.Impl)
    (prop : authentication.authenticationHandlerProps) (c : gin.Context)
    (hparse : c.Request.ParseFormErr = none)
    (hvalid : (utils.IsValidRegister prop.Database (submittedForm c) gin.H.empty).1 = none)
    (hcreate : (utils.CreateNewUser bc
        (utils.IsValidRegister prop.Database (submittedForm c) gin.H.empty).2.2
        (submittedUsername c) (submittedPassword c)).1 = none) :
    (authentication.PostRegister bc prop c).1.written =
      c.written ++ [gin.Response.Redirect 303 "/login"] := by
  unfold authentication.PostRegister
  unfold submittedForm submittedUsername submittedPassword at hvalid hcreate
  simp only [hparse, utils.NewRegisterForm]
  rcases hv : utils.IsValidRegister prop.Database _ gin.H.empty with ⟨e, data1, db1⟩
  rw [hv] at hvalid hcreate
  simp only at hvalid hcreate
  subst hvalid
  simp only
  simp [hcreate, gin.Context.redirected, http.StatusSeeOther, handlers.RoutesPointer,
    config.Routes]

/-- The call `PostRegister` makes on the writer when `IsValidRegister` returns an error:
the registration page alone. -/
theorem PostRegister_invalid_calls (bc : bcrypt.Impl)
    (prop : authentication.authenticationHandlerProps) (c : gin.Context) (err : String)
    (hparse : c.Request.ParseFormErr = none)
    (hvalid : (utils.IsValidRegister prop.Database (submittedForm c) gin.H.empty).1 =
      some err) :
    (authentication.PostRegister bc prop c).1.written =
      c.written ++ [gin.Response.HTML 0 "register.html"
        (utils.IsValidRegister prop.Database (submittedForm c) gin.H.empty).2.1] := by
  unfold authentication.PostRegister
  unfold submittedForm submittedUsername submittedPassword at hvalid ⊢
  simp only [hparse, utils.NewRegisterForm]
  rcases hv : utils.IsValidRegister prop.Database _ gin.H.empty with ⟨e, data1, db1⟩
  rw [hv] at hvalid
  simp only at hvalid
  subst hvalid
  rfl

theorem sentAfter_append_body_redirect (bodyWritten : Bool) (calls : List gin.Response)
    (code : Nat) (body : String) (code2 : Nat) (location : String) :
    gin.sentAfter bodyWritten
        (calls ++ [gin.Response.String code body, gin.Response.Redirect code2 location]) =
      gin.sentAfter bodyWritten calls ++ [gin.Response.String code body] := by
  induction calls generalizing bodyWritten with
  | nil => cases bodyWritten <;> rfl
  | cons r rest ih =>
    cases r with
    | HTML c1 n o => simp [gin.sentAfter, ih]
    | String c1 b => simp [gin.sentAfter, ih]
    | Redirect c1 l =>
      cases bodyWritten
      · simp [gin.sentAfter, ih]
      · simp [gin.sentAfter, ih]

/-- C8: `PostRegister` redirects to the login page only when the user was created. For
every registration that passes `IsValidRegister` and for which `CreateNewUser`
returns an error, what reaches the client is what had reached it before followed
by the internal-error response: the `c.Redirect` the handler still calls comes
after the body and is dropped. And on a fresh writer the redirect to `/login`
reaches the client exactly when the registration is valid and `CreateNewUser`
returns no error. -/
theorem PostRegister_redirects_only_when_created (bc : bcrypt.Impl)
    (prop : authentication.authenticationHandlerProps) (c : gin.Context)
    (hparse : c.Request.ParseFormErr = none) :
    (∀ err,
      (utils.IsValidRegister prop.Database (submittedForm c) gin.H.empty).1 = none →
      (utils.CreateNewUser bc
        (utils.IsValidRegister prop.Database (submittedForm c) gin.H.empty).2.2
        (submittedUsername c) (submittedPassword c)).1 = some err →
      (authentication.PostRegister bc prop c).1.sent = c.sent ++ [internalErrorResponse]) ∧
    (c.written = [] →
      (gin.Response.Redirect 303 "/login" ∈ (authentication.PostRegister bc prop c).1.sent ↔
        (utils.IsValidRegister prop.Database (submittedForm c) gin.H.empty).1 = none ∧
        (utils.CreateNewUser bc
          (utils.IsValidRegister prop.Database (submittedForm c) gin.H.empty).2.2
          (submittedUsername c) (submittedPassword c)).1 = none)) := by
  constructor
  · intro err hvalid hcreate
    unfold gin.Context.sent
    rw [PostRegister_create_error_calls bc prop c err hparse hvalid hcreate]
    unfold internalErrorResponse
    exact sentAfter_append_body_redirect false c.written 500 "Internal Server Error" 303 "/login"
  · intro hfresh
    unfold gin.Context.sent
    cases hvalid : (utils.IsValidRegister prop.Database (submittedForm c) gin.H.empty).1 with
    | some e =>
      rw [PostRegister_invalid_calls bc prop c e hparse hvalid, hfresh]
      simp [gin.sentAfter]
    | none =>
      cases hcreate : (utils.CreateNewUser bc
          (utils.IsValidRegister prop.Database (submittedForm c) gin.H.empty).2.2
          (submittedUsername c) (submittedPassword c)).1 with
      | some err =>
        rw [PostRegister_create_error_calls bc prop c err hparse hvalid hcreate, hfresh]
        simp [gin.sentAfter, internalErrorResponse]
      | none =>
        rw [PostRegister_created_calls bc prop c hparse hvalid hcreate, hfresh]
        simp [gin.sentAfter]

/-- C8 at the registration of `alice` on a server that refuses the INSERT: the
internal-error response is all that reaches the client. -/
theorem PostRegister_redirects_only_when_created_witness :
    (authentication.PostRegister sampleBcrypt
        { Database := some { Connection := some (insertRefusingDB []) } }
        (sampleRequest "alice" "passw0rd1" "passw0rd1")).1.sent =
      [internalErrorResponse] :=
  (PostRegister_redirects_only_when_created sampleBcrypt
    { Database := some { Connection := some (insertRefusingDB []) } }
    (sampleRequest "alice" "passw0rd1" "passw0rd1") rfl).1
    "pq: permission denied for table users" (by decide) (by decide)

/-! ## Lemmas on the login handler -/

theorem ne_of_head_ne (s t : String) (h : s.data.head? ≠ t.data.head?) : s ≠ t := by
  intro hst
  exact h (by rw [hst])

theorem nilConnection_ne_UserNotFound (u : String) :
    "database connection is nil" ≠ fmt.Sprintf utils.UserNotFound u := by
  apply ne_of_head_ne
  rw [Sprintf_UserNotFound]
  simp

theorem scanError_ne_UserNotFound (e u : String) :
    fmt.Sprintf "failed to scan user: %v" e ≠ fmt.Sprintf utils.UserNotFound u := by
  apply ne_of_head_ne
  rw [Sprintf_UserNotFound]
  simp [fmt.Sprintf, fmt.sprintfChars]

theorem LoginError_ne_UserNotFound (u : String) :
    utils.LoginError ≠ "User " ++ u ++ " not found" := by
  apply ne_of_head_ne
  simp [utils.LoginError]

theorem userByUsername_eq_none (conn : sql.DB) (u : String) :
    conn.userByUsername u = none ↔ ∀ row ∈ conn.users, row.username ≠ u := by
  unfold sql.DB.userByUsername
  rw [List.find?_eq_none]
  simp

theorem SetSession_written (c : gin.Context) (key : String) (value : sessions.Value) :
    (handlers.SetSession c key value).2.written = c.written := by
  unfold handlers.SetSession sessions.Save
  cases c.sessionErr <;> cases c.saveErr <;> rfl

/-- What `PostLogin` does after a form that parsed, by the outcome of the lookup. -/
theorem PostLogin_of_fetch (bc : bcrypt.Impl)
    (prop : authentication.authenticationHandlerProps) (c : gin.Context)
    (hparse : c.Request.ParseFormErr = none) :
    (∀ err, (utils.FetchUserByUsername prop.Database (submittedUsername c)).1.2 = some err →
      err = fmt.Sprintf utils.UserNotFound (submittedUsername c) →
      (authentication.PostLogin bc prop c).1 =
        { c with written := c.written ++ [userNotFoundPage (submittedUsername c)] }) ∧
    (∀ err, (utils.FetchUserByUsername prop.Database (submittedUsername c)).1.2 = some err →
      err ≠ fmt.Sprintf utils.UserNotFound (submittedUsername c) →
      (authentication.PostLogin bc prop c).1 =
        { c with written := c.written ++ [internalErrorResponse] }) ∧
    (∀ user, (utils.FetchUserByUsername prop.Database (submittedUsername c)).1 = (user, none) →
      utils.ComparePassword bc (submittedPassword c) user.PasswordHash = false →
      (authentication.PostLogin bc prop c).1 =
        { c with written := c.written ++ [loginErrorPage (submittedUsername c)] }) ∧
    (∀ user, (utils.FetchUserByUsername prop.Database (submittedUsername c)).1 = (user, none) →
      utils.ComparePassword bc (submittedPassword c) user.PasswordHash = true →
      (authentication.PostLogin bc prop c).1.written =
        c.written ++ [gin.Response.Redirect 302 "/user/tasks"]) := by
  unfold authentication.PostLogin submittedUsername submittedPassword
  simp only [hparse, handlers.RoutesPointer, config.Routes, config.NewParseKeys]
  rcases hf : utils.FetchUserByUsername prop.Database
    (utils.TrimSpace (c.Request.PostForm "uname")) with ⟨⟨user, e⟩, db1⟩
  refine ⟨?_, ?_, ?_, ?_⟩
  · intro err he hmsg
    simp only at he
    subst he
    simp only [hmsg, if_true, gin.Context.HTML, userNotFoundPage, http.StatusOK,
      utils.ErrorLoginHTML, Sprintf_UserNotFound]
  · intro err he hmsg
    simp only at he
    subst he
    simp only [hmsg, if_false, gin.Context.String, internalErrorResponse,
      http.StatusInternalServerError]
  · intro user2 he hcmp
    simp only [Prod.mk.injEq] at he
    obtain ⟨hu, he⟩ := he
    subst hu he
    simp [hcmp, gin.Context.HTML, loginErrorPage, http.StatusOK, utils.ErrorLoginHTML,
      utils.LoginError]
  · intro user2 he hcmp
    simp only [Prod.mk.injEq] at he
    obtain ⟨hu, he⟩ := he
    subst hu he
    simp [hcmp, gin.Context.redirected, SetSession_written, http.StatusFound, config.NewCookie]

/-- The lookup returns the not-found error exactly when it finds no row. -/
theorem FetchUserByUsername_not_found_iff (database : Option utils.DataBaseProps) (u : String) :
    (utils.FetchUserByUsername database u).1.2 = some (fmt.Sprintf utils.UserNotFound u) ↔
      lookupFindsNoRow database u := by
  unfold lookupFindsNoRow utils.FetchUserByUsername sql.DB.QueryRowUser
  cases database with
  | none => simpa using nilConnection_ne_UserNotFound u
  | some props =>
    cases hc : props.Connection with
    | none => simpa [hc] using nilConnection_ne_UserNotFound u
    | some conn =>
      cases hfail : conn.failing (.selectUser u) with
      | some e => simpa [hc, hfail] using scanError_ne_UserNotFound e u
      | none =>
        cases hrow : conn.userByUsername u with
        | none =>
          have := (userByUsername_eq_none conn u).1 hrow
          simpa [hc, hfail, hrow] using this
        | some row =>
          have : ¬ ∀ r ∈ conn.users, r.username ≠ u := fun h => by
            rw [(userByUsername_eq_none conn u).2 h] at hrow
            exact Option.noConfusion hrow
          simpa [hc, hfail, hrow] using this

theorem loginErrorPage_ne_userNotFoundPage (u : String) :
    loginErrorPage u ≠ userNotFoundPage u := by
  intro h
  unfold loginErrorPage userNotFoundPage at h
  injection h with _ _ hdata
  have hget := congrArg (fun d => d.get "LoginError") hdata
  simp [gin.H.set, gin.H.empty] at hget
  exact LoginError_ne_UserNotFound u hget

theorem append_singleton_inj {α : Type} (l : List α) (a b : α) (h : l ++ [a] = l ++ [b]) :
    a = b := by
  have := List.append_cancel_left h
  exact (List.cons.inj this).1

/-! ## C9: login with an unknown username -/

/-- C9: for a login form that parses and submits username `u` (trimmed), `PostLogin`
renders the login page with the message "User u not found" and with `u` put back
exactly when the lookup of `u` runs and finds no row; any other failure of the
lookup yields the internal-error response; and whenever the lookup fails the
context is changed in what is written only, so that no session value is set and no
session is saved. -/
theorem PostLogin_user_not_found (bc : bcrypt.Impl)
    (prop : authentication.authenticationHandlerProps) (c : gin.Context)
    (hparse : c.Request.ParseFormErr = none) :
    ((authentication.PostLogin bc prop c).1.written =
        c.written ++ [userNotFoundPage (submittedUsername c)] ↔
      lookupFindsNoRow prop.Database (submittedUsername c)) ∧
    (∀ err, (utils.FetchUserByUsername prop.Database (submittedUsername c)).1.2 = some err →
      ¬ lookupFindsNoRow prop.Database (submittedUsername c) →
      (authentication.PostLogin bc prop c).1.written = c.written ++ [internalErrorResponse]) ∧
    (∀ err, (utils.FetchUserByUsername prop.Database (submittedUsername c)).1.2 = some err →
      (authentication.PostLogin bc prop c).1.session = c.session ∧
      (authentication.PostLogin bc prop c).1.saved = c.saved ∧
      (authentication.PostLogin bc prop c).1.written.length = c.written.length + 1) := by
  obtain ⟨hnf, hother, hwrong, hok⟩ := PostLogin_of_fetch bc prop c hparse
  have hiff := FetchUserByUsername_not_found_iff prop.Database (submittedUsername c)
  refine ⟨⟨?_, ?_⟩, ?_, ?_⟩
  · intro hw
    by_contra hN
    rcases hf : utils.FetchUserByUsername prop.Database (submittedUsername c) with
      ⟨⟨user, e⟩, db1⟩
    cases e with
    | some err =>
      have hne : err ≠ fmt.Sprintf utils.UserNotFound (submittedUsername c) := by
        intro h
        apply hN
        rw [← hiff, hf, h]
      rw [hother err (by rw [hf]) hne] at hw
      have := append_singleton_inj _ _ _ hw
      unfold internalErrorResponse userNotFoundPage at this
      exact gin.Response.noConfusion this
    | none =>
      cases hcmp : utils.ComparePassword bc (submittedPassword c) user.PasswordHash with
      | false =>
        rw [hwrong user (by rw [hf]) hcmp] at hw
        exact loginErrorPage_ne_userNotFoundPage _ (append_singleton_inj _ _ _ hw)
      | true =>
        rw [hok user (by rw [hf]) hcmp] at hw
        have := append_singleton_inj _ _ _ hw
        unfold userNotFoundPage at this
        exact gin.Response.noConfusion this
  · intro hN
    rw [hnf _ (hiff.2 hN) rfl]
  · intro err he hN
    have hne : err ≠ fmt.Sprintf utils.UserNotFound (submittedUsername c) := by
      intro h
      apply hN
      rw [← hiff, he, h]
    rw [hother err he hne]
  · intro err he
    by_cases h : err = fmt.Sprintf utils.UserNotFound (submittedUsername c)
    · rw [hnf err he h]
      simp
    · rw [hother err he h]
      simp

/-- C9 at a login of `alice` on a server that has no such user: the page says
"User alice not found" and gives `alice` back. -/
theorem PostLogin_user_not_found_witness :
    (authentication.PostLogin sampleBcrypt
        { Database := some { Connection := some (sampleDB [bobRow]) } }
        (sampleRequest " alice" "passw0rd1" "")).1.written =
      [gin.Response.HTML 200 "login.html"
        ((gin.H.empty.set "LoginError" (.str "User alice not found")).set "Username"
          (.str "alice"))] :=
  ((PostLogin_user_not_found sampleBcrypt
      { Database := some { Connection := some (sampleDB [bobRow]) } }
      (sampleRequest " alice" "passw0rd1" "") rfl).1.2
    ⟨{ Connection := some (sampleDB [bobRow]) }, sampleDB [bobRow], rfl, rfl, rfl,
      by decide⟩).trans rfl

/-! ## C10: login with a wrong password -/

/-- C10: for a login form that parses, a submitted username that has a row in `users`
and a submitted password that fails verification against the hash of that row,
`PostLogin` renders the login page with the fixed message
"Incorrect username or password" and the username put back, writes nothing else (no
redirect), and changes nothing else in the context: no session value is set and no
session is saved. -/
theorem PostLogin_wrong_password (bc : bcrypt.Impl) (props : utils.DataBaseProps)
    (conn : sql.DB) (row : sql.UserRow) (c : gin.Context)
    (hparse : c.Request.ParseFormErr = none)
    (hconn : props.Connection = some conn)
    (hrun : conn.failing (.selectUser (submittedUsername c)) = none)
    (hrow : conn.userByUsername (submittedUsername c) = some row)
    (hfail : bc.CompareHashAndPassword row.passwordhash (submittedPassword c) ≠ none) :
    (authentication.PostLogin bc { Database := some props } c).1 =
      { c with written := c.written ++ [loginErrorPage (submittedUsername c)] } ∧
    (authentication.PostLogin bc { Database := some props } c).1.session = c.session ∧
    (authentication.PostLogin bc { Database := some props } c).1.saved = c.saved := by
  obtain ⟨-, -, hwrong, -⟩ := PostLogin_of_fetch bc { Database := some props } c hparse
  have hf : (utils.FetchUserByUsername (some props) (submittedUsername c)).1 =
      ({ ID := toString row.id, Username := row.username, PasswordHash := row.passwordhash,
         creationTime := row.creation_time }, none) := by
    unfold utils.FetchUserByUsername sql.DB.QueryRowUser
    simp [hconn, hrun, hrow]
  have hcmp : utils.ComparePassword bc (submittedPassword c) row.passwordhash = false := by
    unfold utils.ComparePassword
    cases h : bc.CompareHashAndPassword row.passwordhash (submittedPassword c) with
    | none => exact absurd h hfail
    | some _ => rfl
  have := hwrong _ hf hcmp
  rw [this]
  exact ⟨rfl, rfl, rfl⟩

/-- C10 at a login of `bob` with a wrong password. -/
theorem PostLogin_wrong_password_witness :
    (authentication.PostLogin sampleBcrypt
        { Database := some { Connection := some (sampleDB [bobRow]) } }
        (sampleRequest "bob" "wrongpass1" "")).1.written =
      [gin.Response.HTML 200 "login.html"
        ((gin.H.empty.set "LoginError" (.str "Incorrect username or password")).set
          "Username" (.str "bob"))] :=
  (congrArg gin.Context.written
    (PostLogin_wrong_password sampleBcrypt { Connection := some (sampleDB [bobRow]) }
      (sampleDB [bobRow]) bobRow (sampleRequest "bob" "wrongpass1" "") rfl rfl rfl
      (by decide) (by decide)).1).trans rfl

/-! ## Lemmas on the session readers -/

theorem GetSessionAndUser_false (c : gin.Context)
    (h : (handlers.GetSessionAndUser c).2.2 = false) :
    ∃ session, handlers.GetSessionAndUser c = (session, none, false) := by
  unfold handlers.GetSessionAndUser at h ⊢
  cases hse : c.sessionErr with
  | some e => exact ⟨none, by simp only⟩
  | none =>
    simp only [hse] at h ⊢
    cases hv : c.session.Values handlers.RoutesPointer.Cookie.UserInfoKey with
    | none => exact ⟨some c.session, by simp only⟩
    | some v =>
      cases v with
      | user u0 => exact ⟨some c.session, by simp only⟩
      | userPtr u0 => simp [hv] at h

theorem GetSessionAndUser_valid (c : gin.Context) (u : utils.User)
    (hs : c.sessionErr = none) (hu : c.session.Values "user" = some (.userPtr u)) :
    handlers.GetSessionAndUser c = (some c.session, some u, true) := by
  unfold handlers.GetSessionAndUser
  have hk : handlers.RoutesPointer.Cookie.UserInfoKey = "user" := rfl
  rw [hs, hk]
  simp only [hu]

theorem GetUserFromSession_valid (c : gin.Context) (u : utils.User)
    (hs : c.sessionErr = none) (hu : c.session.Values "user" = some (.userPtr u)) :
    handlers.GetUserFromSession c = (some u, true) := by
  unfold handlers.GetUserFromSession
  have hk : handlers.RoutesPointer.Cookie.UserInfoKey = "user" := rfl
  rw [hs, hk]
  simp only [hu]

/-! ## C11: the response of `Auth` without a session user -/

/-- C11: for a request for which `GetSessionAndUser` finds no valid session user, `Auth`
calls `c.Redirect` with the unauthorized status 401, which gin refuses: the call
panics, so `Auth` ends in that panic with nothing written, neither the status 401
nor a redirect, and the rest of the chain is not run. The location it passes is
`/user/logout`, the `RedirectPath` of the task-list route, which is not the path
`/login` of the login route. -/
theorem Auth_no_session_panics {σ : Type}
    (next : gin.Context → σ → Except String (gin.Context × σ)) (c : gin.Context) (s : σ)
    (h : (handlers.GetSessionAndUser c).2.2 = false) :
    middleware.Auth next c s = .error "Cannot redirect with status code 401" ∧
    gin.redirectStatusAccepted http.StatusUnauthorized = false ∧
    handlers.RoutesPointer.UserConfig.GetTask.RedirectPath = "/user/logout" ∧
    handlers.RoutesPointer.UserConfig.GetTask.RedirectPath ≠
      handlers.RoutesPointer.MainLoginConfig.Path := by
  obtain ⟨session, hg⟩ := GetSessionAndUser_false c h
  refine ⟨?_, by decide, rfl, by decide⟩
  unfold middleware.Auth
  rw [hg]
  cases session <;> rfl

/-- C11 at a task-list request without a cookie: the run ends in the panic of the
redirect. -/
theorem Auth_no_session_panics_witness :
    middleware.Auth (fun c s => task.GetTasks s c) (sampleRequest "" "" "")
        { Database := some { Connection := some sampleTaskDB } } =
      .error "Cannot redirect with status code 401" :=
  (Auth_no_session_panics (fun c s => task.GetTasks s c) (sampleRequest "" "" "")
    { Database := some { Connection := some sampleTaskDB } } rfl).1

/-! ## C12: no protected logic without a session user -/

/-- C13: for a request whose session decodes and holds a `*utils.User` under the user
key, `Auth` sets the session's max-age to the configured session time, 300, and
saves the session; when the save succeeds it hands the context, with the session
saved, to the next handler, and its result is the result of that handler; when
the save fails it writes the error with status 500 and does not go on. -/
theorem Auth_refreshes_session {σ : Type}
    (next : gin.Context → σ → Except String (gin.Context × σ)) (c : gin.Context) (s : σ)
    (u : utils.User) (hs : c.sessionErr = none)
    (hu : c.session.Values "user" = some (.userPtr u)) :
    handlers.RoutesPointer.Authentication.SessionTime = 300 ∧
    (c.saveErr = none →
      middleware.Auth next c s =
        next { c with
                session := { c.session with MaxAge := 300 }
                saved := c.saved ++ [{ c.session with MaxAge := 300 }] } s) ∧
    (∀ err, c.saveErr = some err →
      middleware.Auth next c s =
        .ok ({ c with
                session := { c.session with MaxAge := 300 }
                written := c.written ++ [gin.Response.String 500 err] }, s)) := by
  have hg := GetSessionAndUser_valid c u hs hu
  refine ⟨rfl, ?_, ?_⟩
  · intro hsave
    unfold middleware.Auth sessions.Save
    rw [hg]
    simp only [hsave]
    rfl
  · intro err hsave
    unfold middleware.Auth sessions.Save
    rw [hg]
    simp only [hsave]
    rfl

/-- C13 at a task-list request of `bob`: the session is saved with max-age 300 and the
task list is rendered by the next handler. -/
theorem Auth_refreshes_session_witness :
    middleware.Auth (fun c s => task.GetTasks s c) (sessionRequest bobUser "" "")
        { Database := some { Connection := some sampleTaskDB } } =
      task.GetTasks { Database := some { Connection := some sampleTaskDB } }
        { sessionRequest bobUser "" "" with
          saved := [{ (sessionRequest bobUser "" "").session with MaxAge := 300 }] } :=
  (Auth_refreshes_session (fun c s => task.GetTasks s c) (sessionRequest bobUser "" "")
    { Database := some { Connection := some sampleTaskDB } } bobUser rfl rfl).2.1 rfl

/-! ## C14: the max-age `Logout` sets -/

/-- C14: for a logout request whose session decodes and holds a user, and whose save
succeeds, `Logout` sets the session's max-age to
`MainLoginConfig.SessionTimeOut`, which the configuration leaves at zero, saves
the session with that max-age 0, which is not negative, and redirects to `/login`
with status 302. The negative value -1 is the `SessionTimeOut` of the
`Authentication` entry, which `Logout` does not read. -/
theorem Logout_max_age_zero (c : gin.Context) (u : utils.User)
    (hs : c.sessionErr = none) (hu : c.session.Values "user" = some (.userPtr u))
    (hsave : c.saveErr = none) :
    middleware.Logout c =
      .ok { c with
            session := { c.session with MaxAge := 0 }
            saved := c.saved ++ [{ c.session with MaxAge := 0 }]
            written := c.written ++ [gin.Response.Redirect 302 "/login"] } ∧
    handlers.RoutesPointer.MainLoginConfig.SessionTimeOut = 0 ∧
    handlers.RoutesPointer.Authentication.SessionTimeOut = -1 := by
  have hg := GetSessionAndUser_valid c u hs hu
  refine ⟨?_, rfl, rfl⟩
  unfold middleware.Logout sessions.Save
  rw [hg]
  simp only [hsave]
  rfl

/-- C14 at a logout of `bob`: the session saved has max-age 0. -/
theorem Logout_max_age_zero_witness :
    middleware.Logout (sessionRequest bobUser "" "") =
      .ok { sessionRequest bobUser "" "" with
            session := { (sessionRequest bobUser "" "").session with MaxAge := 0 }
            saved := [{ (sessionRequest bobUser "" "").session with MaxAge := 0 }]
            written := [gin.Response.Redirect 302 "/login"] } :=
  (Logout_max_age_zero (sessionRequest bobUser "" "") bobUser rfl rfl rfl).1

/-! ## C15: the task id of a delete request -/

theorem StrToInt_eq_neg_one_iff (s : String) :
    utils.StrToInt s = -1 ↔ ∀ n, strconv.Atoi s = .ok n → n = -1 := by
  unfold utils.StrToInt
  cases h : strconv.Atoi s with
  | error e => simp
  | ok n => simp

theorem StrToInt_of_Atoi (s : String) (n : Int) (h : strconv.Atoi s = .ok n) :
    utils.StrToInt s = n := by
  unfold utils.StrToInt
  rw [h]

/-- C15 as stated fails at the task id `-1`: it is a valid integer, yet the handler
answers with the internal-error response and leaves the database as it was, no
statement being sent. -/
theorem DeleteTask_handler_minus_one :
    strconv.Atoi "-1" = .ok (-1) ∧
    task.DeleteTask { Database := some { Connection := some sampleTaskDB } }
        (sessionRequest bobUser "-1" "") =
      .ok ({ sessionRequest bobUser "-1" "" with written := [internalErrorResponse] },
           { Database := some { Connection := some sampleTaskDB } }) :=
  ⟨rfl, rfl⟩

/-- C15 amended: for a delete request with a valid session user and a form that parses,
`DeleteTask` answers with the internal-error response of the parse branch, the
database untouched, exactly when `StrToInt` of the trimmed `TaskID` is -1, that
is when the text is not a valid integer or is the integer -1 itself, the value
`StrToInt` returns for a failure; for every valid integer other than -1 (negative
ones such as `-2` included) it calls the persistence delete with that id and the
session user's id and redirects to the task list when the delete returns no
error, answering "Failed to delete task" with status 500 otherwise. -/
theorem DeleteTask_handler_parse (prop : task.taskHandleProps) (c : gin.Context)
    (u : utils.User) (hs : c.sessionErr = none)
    (hu : c.session.Values "user" = some (.userPtr u))
    (hparse : c.Request.ParseFormErr = none) :
    (task.DeleteTask prop c =
        .ok ({ c with written := c.written ++ [internalErrorResponse] }, prop) ↔
      ∀ n, strconv.Atoi (submittedTaskID c) = .ok n → n = -1) ∧
    (∀ n, strconv.Atoi (submittedTaskID c) = .ok n → n ≠ -1 →
      task.DeleteTask prop c =
        .ok (match utils.DeleteTask prop.Database u.ID n with
          | (none, database1) =>
            ({ c with written := c.written ++ [gin.Response.Redirect 302 "/user/tasks"] },
              { Database := database1 })
          | (some _, database1) =>
            ({ c with written := c.written ++ [gin.Response.String 500 "Failed to delete task"] },
              { Database := database1 }))) := by
  have hget := GetUserFromSession_valid c u hs hu
  have hstep : ∀ n, utils.StrToInt (submittedTaskID c) = n → n ≠ -1 →
      task.DeleteTask prop c =
        .ok (match utils.DeleteTask prop.Database u.ID n with
          | (none, database1) =>
            ({ c with written := c.written ++ [gin.Response.Redirect 302 "/user/tasks"] },
              { Database := database1 })
          | (some _, database1) =>
            ({ c with written := c.written ++ [gin.Response.String 500 "Failed to delete task"] },
              { Database := database1 })) := by
    intro n hn hne
    unfold submittedTaskID at hn
    unfold task.DeleteTask
    rw [hget]
    simp only [hparse, hn, hne, if_false]
    rcases utils.DeleteTask prop.Database u.ID n with ⟨e, db1⟩
    cases e <;> rfl
  constructor
  · rw [← StrToInt_eq_neg_one_iff]
    constructor
    · intro hres
      by_contra hne
      rw [hstep _ rfl hne] at hres
      rcases hd : utils.DeleteTask prop.Database u.ID (utils.StrToInt (submittedTaskID c)) with
        ⟨e, db1⟩
      rw [hd] at hres
      cases e with
      | none =>
        simp only [Except.ok.injEq, Prod.mk.injEq, gin.Context.mk.injEq] at hres
        have := append_singleton_inj _ _ _ hres.1.2.2.2.2.2
        unfold internalErrorResponse at this
        exact gin.Response.noConfusion this
      | some e =>
        simp only [Except.ok.injEq, Prod.mk.injEq, gin.Context.mk.injEq] at hres
        have := append_singleton_inj _ _ _ hres.1.2.2.2.2.2
        unfold internalErrorResponse at this
        injection this with _ hbody
        exact absurd hbody (by decide)
    · intro hminus
      unfold submittedTaskID at hminus
      unfold task.DeleteTask
      rw [hget]
      simp only [hparse, hminus, if_true]
      rfl
  · intro n hn hne
    exact hstep n (StrToInt_of_Atoi _ n hn) hne

/-- C15 amended at the task id `-2` of a request of `bob`: the delete is sent with id -2
and the user id `1`, and the handler redirects to the task list. -/
theorem DeleteTask_handler_parse_witness :
    task.DeleteTask { Database := some { Connection := some sampleTaskDB } }
        (sessionRequest bobUser "-2" "") =
      .ok ({ sessionRequest bobUser "-2" "" with
              written := [gin.Response.Redirect 302 "/user/tasks"] },
           { Database := some
               { Connection := some { sampleTaskDB with log := [sql.Stmt.deleteTask "1" (-2)] } } }) :=
  ((DeleteTask_handler_parse { Database := some { Connection := some sampleTaskDB } }
      (sessionRequest bobUser "-2" "") bobUser rfl rfl rfl).2 (-2) rfl (by decide)).trans rfl

/-! ## C16: what the persistence delete removes -/

/-- C16: on a connection on which the statement runs, the persistence
`DeleteTask(userID, taskID)` returns no error and leaves the database as it was
except for the statement received and the `tasks` table, from which exactly the
rows whose id is `taskID` and whose `user_id` is `userID` are gone: a row is in the
table afterwards if and only if it was in it before and is not such a row, and
the rows kept are kept as they were. When no row has that id and that owner
(unknown id, or a task of another user) the table is unchanged. -/
theorem DeleteTask_frame (props : utils.DataBaseProps) (conn : sql.DB) (userID : String)
    (taskID : Int) (hconn : props.Connection = some conn)
    (hrun : conn.failing (.deleteTask userID taskID) = none) :
    utils.DeleteTask (some props) userID taskID =
      (none, some { props with
        Connection := some { conn with
          log := conn.log ++ [sql.Stmt.deleteTask userID taskID]
          tasks := conn.tasks.filter fun r => !(r.ownedBy userID && r.id == taskID) } }) ∧
    (∀ row : sql.TaskRow,
      row ∈ (conn.tasks.filter fun r => !(r.ownedBy userID && r.id == taskID)) ↔
        row ∈ conn.tasks ∧
          ¬ (row.id = taskID ∧ sql.integerOfText userID = some row.user_id)) ∧
    ((∀ row ∈ conn.tasks,
        ¬ (row.id = taskID ∧ sql.integerOfText userID = some row.user_id)) →
      (conn.tasks.filter fun r => !(r.ownedBy userID && r.id == taskID)) = conn.tasks) := by
  refine ⟨?_, ?_, ?_⟩
  · unfold utils.DeleteTask sql.DB.ExecDeleteTask
    simp only [hconn, hrun]
    rfl
  · intro row
    simp only [List.mem_filter, sql.TaskRow.ownedBy, Bool.not_eq_true', Bool.and_eq_false_iff,
      beq_eq_false_iff_ne, ne_eq]
    constructor
    · rintro ⟨hmem, h⟩
      refine ⟨hmem, fun hboth => ?_⟩
      rcases h with h | h
      · exact h hboth.2
      · exact h hboth.1
    · rintro ⟨hmem, h⟩
      refine ⟨hmem, ?_⟩
      by_cases ho : sql.integerOfText userID = some row.user_id
      · exact Or.inr fun hid => h ⟨hid, ho⟩
      · exact Or.inl ho
  · intro hnone
    rw [List.filter_eq_self]
    intro row hmem
    have h := hnone row hmem
    simp only [sql.TaskRow.ownedBy, Bool.not_eq_true', Bool.and_eq_false_iff,
      beq_eq_false_iff_ne, ne_eq]
    by_cases ho : sql.integerOfText userID = some row.user_id
    · exact Or.inr fun hid => h ⟨hid, ho⟩
    · exact Or.inl ho

/-- C16 at the delete of task 11, which belongs to user 2, by user 1: no error, and the
table is unchanged. -/
theorem DeleteTask_frame_witness :
    (utils.DeleteTask (some { Connection := some sampleTaskDB }) "1" 11).1 = none ∧
    (sampleTaskDB.tasks.filter fun r => !(r.ownedBy "1" && r.id == 11)) = sampleTaskDB.tasks :=
  ⟨congrArg Prod.fst
      (DeleteTask_frame { Connection := some sampleTaskDB } sampleTaskDB "1" 11 rfl rfl).1,
    (DeleteTask_frame { Connection := some sampleTaskDB } sampleTaskDB "1" 11 rfl rfl).2.2
      (by decide)⟩

/-! ## C17: the operations without a usable connection -/

/-- C17: without a usable connection (nil database or nil connection handle),
`FetchUserByUsername`, `DoesUserExist`, `CreateNewUser`, `GetTasksFromDatabase`
and `DeleteTask` return the error "database connection is nil" and leave the
database as it was, while `AddTask`, which has no such check, ends in a nil
dereference instead of returning an error. -/
theorem nil_connection_operations (bc : bcrypt.Impl)
    (database : Option utils.DataBaseProps) (h : noUsableConnection database)
    (Username Password userID task : String) (taskID : Int) :
    utils.FetchUserByUsername database Username = (({}, some connectionNilError), database) ∧
    utils.DoesUserExist database Username = ((false, some connectionNilError), database) ∧
    utils.CreateNewUser bc database Username Password = (some connectionNilError, database) ∧
    utils.GetTasksFromDatabase database userID = (([], some connectionNilError), database) ∧
    utils.DeleteTask database userID taskID = (some connectionNilError, database) ∧
    utils.AddTask database userID task =
      .error "runtime error: invalid memory address or nil pointer dereference" := by
  unfold utils.FetchUserByUsername utils.DoesUserExist utils.CreateNewUser
    utils.GetTasksFromDatabase utils.DeleteTask utils.AddTask connectionNilError
  rcases h with h | ⟨props, h, hconn⟩
  · subst h
    exact ⟨rfl, rfl, rfl, rfl, rfl, rfl⟩
  · subst h
    simp [hconn]

/-- C17 at the nil database: `AddTask` ends in a nil dereference where `DeleteTask`
returns the error. -/
theorem nil_connection_operations_witness :
    utils.DeleteTask none "1" 10 = (some "database connection is nil", none) ∧
    utils.AddTask none "1" "buy milk" =
      .error "runtime error: invalid memory address or nil pointer dereference" :=
  ⟨(nil_connection_operations sampleBcrypt none (Or.inl rfl) "bob" "hunter22a" "1"
      "buy milk" 10).2.2.2.2.1,
   (nil_connection_operations sampleBcrypt none (Or.inl rfl) "bob" "hunter22a" "1"
      "buy milk" 10).2.2.2.2.2⟩

/-! ## C18: the bcrypt wrappers -/

theorem ComparePassword_iff (bc : bcrypt.Impl) (password hash : String) :
    utils.ComparePassword bc password hash = true ↔
      bc.CompareHashAndPassword hash password = none := by
  unfold utils.ComparePassword
  cases bc.CompareHashAndPassword hash password <;> simp

theorem HashPassword_eq (bc : bcrypt.Impl) (password : String) :
    utils.HashPassword bc password = bc.GenerateFromPassword password bcrypt.DefaultCost := by
  unfold utils.HashPassword
  cases bc.GenerateFromPassword password bcrypt.DefaultCost <;> rfl

/-! ## C19: the length rule counts bytes -/

/-- C19: on equal arguments `IsValidPassword` returns the lower length error exactly when
the UTF-8 byte length of the password is below 8 and the upper length error exactly
when it is above 64. So a password of 5 characters and 8 bytes passes the length
rule (here it is accepted), and a password of 33 characters and 66 bytes fails
it. -/
theorem IsValidPassword_length_in_bytes :
    (∀ pw : String,
      (utils.IsValidPassword pw pw = some lengthMinError ↔ pw.utf8ByteSize < 8) ∧
      (utils.IsValidPassword pw pw = some lengthMaxError ↔ 64 < pw.utf8ByteSize)) ∧
    (shortCyrillicPassword.length = 5 ∧ shortCyrillicPassword.utf8ByteSize = 8 ∧
      utils.IsValidPassword shortCyrillicPassword shortCyrillicPassword = none) ∧
    (longCyrillicPassword.length = 33 ∧ longCyrillicPassword.utf8ByteSize = 66 ∧
      utils.IsValidPassword longCyrillicPassword longCyrillicPassword =
        some lengthMaxError) := by
  refine ⟨?_, by decide, by decide⟩
  intro pw
  rw [IsValidPassword_same]
  have d1 : lengthMaxError ≠ lengthMinError := by decide
  have d2 : utils.LatinError ≠ lengthMinError := by decide
  have d3 : utils.DigitError ≠ lengthMinError := by decide
  have d4 : utils.SpaceError ≠ lengthMinError := by decide
  have e2 : utils.LatinError ≠ lengthMaxError := by decide
  have e3 : utils.DigitError ≠ lengthMaxError := by decide
  have e4 : utils.SpaceError ≠ lengthMaxError := by decide
  by_cases h1 : pw.utf8ByteSize < 8
  · have h2 : ¬ 64 < pw.utf8ByteSize := by omega
    simp [h1, h2, d1.symm]
  · by_cases h2 : 64 < pw.utf8ByteSize
    · simp [h1, h2, d1]
    · simp only [h1, h2, if_false, iff_false]
      constructor <;> split_ifs <;> simp [d2, d3, d4, e2, e3, e4]

end TodoWebApp
